import Mathlib

/-!
# Task management core of the nos kernel (`kernel/sch/task.c`)

A shallow embedding of `task.c`: the kernel state is an explicit record, every C
function is a state transformer on it, and the collaborators that live outside
`task.c` (allocators, timer, ready queue, list helpers, reschedule request) are
small recorded steps on the same record.

Conventions.
* Pointers are natural numbers, `0` is `NULL`.
* A `list_head` chain is the sequence of nodes reached from its head, head to tail.
* `spin_lock` / `spin_unlock` always come in pairs inside one function and the
  embedding is sequential, so they leave no mark on the state.
* Every call of a collaborator is appended to `Kernel.trace`; every `pr_err` /
  `pr_warning` is appended to `Kernel.console` with its function and line.
* `Kernel.history` interleaves the collaborator calls with the list operations and
  with the writes of `task->status` and `task->list_lock`, in program order.
-/

namespace Nos

/-! ## Data model -/

/-- Task states used by `task.c` (`TASK_READY`, `TASK_RUNING`, `TASK_WAIT`,
`TASK_SUSPEND`, `TASK_CLOSE`). -/
inductive task_status
  | TASK_READY
  | TASK_RUNING
  | TASK_WAIT
  | TASK_SUSPEND
  | TASK_CLOSE
  deriving DecidableEq, Repr

/-- Spinlocks that `task->list_lock` may point to: `close_list_lock` of `task.c`,
the `ready_list_lock` it declares `extern`, and the lock of wait list number `i`
owned by some other module. -/
inductive list_lock_ref
  | close_list_lock
  | ready_list_lock
  | wait_list_lock (i : Nat)
  deriving DecidableEq, Repr

/-- The two `struct list_head` members of a task: `task->list` (scheduler and wait
lists, and the closed registry) and `task->tlist` (live registry). The argument is
the task pointer. -/
inductive node_ref
  | list (task : Nat)
  | tlist (task : Nat)
  deriving DecidableEq, Repr

/-- List heads: the two registries of `task.c`, the ready queue bucket of a
priority, and wait list number `i` of some other module. -/
inductive list_head
  | task_list
  | close_task_list
  | ready_task_list (prio : Nat)
  | wait_list (i : Nat)
  deriving DecidableEq, Repr

/-- Embedded one-shot timer of a task, as far as `task.c` drives it. -/
structure timer where
  initialised : Bool
  name : String
  context : Nat
  armed : Option Nat
  deriving DecidableEq, Repr

/-- The control block `struct task_struct`, with the fields `task.c` reads or writes. -/
structure task_struct where
  pid : Nat
  name : String
  entry : Nat
  parameter : Nat
  stack : Nat
  sp : Nat
  init_priority : Nat
  current_priority : Nat
  offset : Nat
  offset_mask : Nat
  prio_mask : Nat
  init_tick : Nat
  remaining_tick : Nat
  status : task_status
  cleanup : Nat
  flag : Int
  start_time : Nat
  run_time : Nat
  sys_cycle : Nat
  save_sys_cycle : Nat
  save_run_time : Nat
  list_lock : Option list_lock_ref
  timer : timer
  deriving DecidableEq, Repr

/-- Calls of collaborators, in the order they happen. Allocation calls carry the
value they returned (`0` for a failed one). -/
inductive Event
  | kalloc (ptr : Nat)
  | kfree (ptr : Nat)
  | alloc_page (ptr : Nat)
  | free_page (ptr : Nat)
  | pid_alloc (pid : Nat)
  | pid_free (pid : Nat)
  | stack_init (task : Nat)
  | timer_init (task : Nat) (rc : Int)
  | timer_start (task : Nat) (tick : Nat)
  | timer_stop (task : Nat)
  | add_task_to_ready_list (task : Nat)
  | del_task_to_ready_list (task : Nat)
  | switch_task
  deriving DecidableEq, Repr

/-- What happens to a task's scheduling state, in program order: calls of
collaborators, the list operations of `list.h`, and the writes `task.c` makes to
`task->status` and `task->list_lock`. -/
inductive Action
  | call (e : Event)
  | list_add_tail (n : node_ref) (head : list_head)
  | list_del (n : node_ref)
  | write_status (task : Nat) (status : task_status)
  | write_list_lock (task : Nat) (lock : Option list_lock_ref)
  deriving DecidableEq, Repr

/-- One console line: level, `__func__` and `__LINE__` (see `pr_fmt`). -/
inductive log_line
  | err (func : String) (line : Nat)
  | warning (func : String) (line : Nat)
  deriving DecidableEq, Repr

/-- Build-time configuration: the macros `task.c` tests and the sizes it adds. -/
structure Config where
  CONFIG_MAX_PRIORITY : Nat
  CONFIG_STACK_GROWSUP : Bool
  sizeof_task_info : Nat
  sizeof_task_union : Nat
  sizeof_addr_t : Nat
  deriving DecidableEq, Repr

/-- What the collaborators answer during one `task_create` call: the pointers
returned by `kalloc` and `alloc_page`, the pid returned by `pid_alloc`, the stack
pointer returned by `stack_init` and the return code of `timer_init`. -/
structure create_env where
  kalloc : Nat
  alloc_page : Nat
  pid_alloc : Nat
  stack_init : Nat
  timer_init : Int
  deriving DecidableEq, Repr

/-- Whole kernel state seen by `task.c`. -/
structure Kernel where
  mem : Nat → task_struct
  info_task : Nat → Nat
  lists : list_head → List node_ref
  current : Nat
  kheap : List Nat
  pages : List Nat
  pids : List Nat
  trace : List Event
  console : List log_line
  history : List Action

/-- Outcome of a call that may stop in `BUG_ON`. -/
inductive Ret (α : Type)
  | ret (v : α)
  | bug
  deriving DecidableEq, Repr

/-- Modelled from the spec: the errno header is absent; error codes are negative
numbers, and `EINVAL` has its customary value. -/
def EINVAL : Int := 22

/-- Modelled from the spec: the errno header is absent; `ETIMEDOUT` has its
customary value. -/
def ETIMEDOUT : Int := 110

/-- Width of `unsigned long` and of `addr_t` on the 32-bit board of this tree. -/
def WORD : Nat := 2 ^ 32

/-! ## Small state updates -/

/-- Write into the control block at `task`. -/
def Kernel.update (k : Kernel) (task : Nat) (f : task_struct → task_struct) : Kernel :=
  { k with mem := fun a => if a = task then f (k.mem task) else k.mem a }

/-- Console output of `pr_err`. -/
def pr_err (k : Kernel) (func : String) (line : Nat) : Kernel :=
  { k with console := k.console ++ [log_line.err func line] }

/-- Console output of `pr_warning`. -/
def pr_warning (k : Kernel) (func : String) (line : Nat) : Kernel :=
  { k with console := k.console ++ [log_line.warning func line] }

/-- Record a collaborator call. -/
def Kernel.emit (k : Kernel) (e : Event) : Kernel :=
  { k with trace := k.trace ++ [e], history := k.history ++ [Action.call e] }

/-- Record an action in the history. -/
def Kernel.log (k : Kernel) (a : Action) : Kernel :=
  { k with history := k.history ++ [a] }

/-- The assignment `task->status = status` made by `task.c`. -/
def set_status (k : Kernel) (task : Nat) (status : task_status) : Kernel :=
  (k.log (.write_status task status)).update task fun ts => { ts with status := status }

/-- The assignment `task->list_lock = lock` made by `task.c`. -/
def set_list_lock (k : Kernel) (task : Nat) (lock : Option list_lock_ref) : Kernel :=
  (k.log (.write_list_lock task lock)).update task fun ts => { ts with list_lock := lock }

/-! ## Collaborators outside `task.c` -/

/-- Modelled from the spec: `list.h` is absent. `INIT_LIST_HEAD` makes the node an
empty chain of its own; the sequences reached from the list heads are what they
were. -/
def INIT_LIST_HEAD (k : Kernel) (_n : node_ref) : Kernel := k

/-- Modelled from the spec: `list.h` is absent. `list_add_tail(n, head)` links `n`
as the last element of the chain of `head`. -/
def list_add_tail (k : Kernel) (n : node_ref) (head : list_head) : Kernel :=
  { k with lists := fun h => if h = head then k.lists h ++ [n] else k.lists h,
           history := k.history ++ [Action.list_add_tail n head] }

/-- Modelled from the spec: `list.h` is absent. `list_del(n)` takes no head: it
unlinks `n` from whichever chain reaches it. -/
def list_del (k : Kernel) (n : node_ref) : Kernel :=
  { k with lists := fun h => (k.lists h).filter (fun m => decide (m ≠ n)),
           history := k.history ++ [Action.list_del n] }

/-- Modelled from the spec: the memory manager is absent. The state after a call of
`kalloc` that returned `r` (`0` when it fails); a block it hands out is allocated
until `kfree`. -/
def kalloc (k : Kernel) (r : Nat) : Kernel :=
  { k.emit (.kalloc r) with kheap := if r = 0 then k.kheap else r :: k.kheap }

/-- Modelled from the spec: the memory manager is absent. `kfree` releases a block. -/
def kfree (k : Kernel) (ptr : Nat) : Kernel :=
  { k.emit (.kfree ptr) with kheap := k.kheap.erase ptr }

/-- Modelled from the spec: the memory manager is absent. The state after a call of
`alloc_page` that returned `r` (`0` when it fails); a page it hands out is allocated
until `free_page`. -/
def alloc_page (k : Kernel) (r : Nat) : Kernel :=
  { k.emit (.alloc_page r) with pages := if r = 0 then k.pages else r :: k.pages }

/-- Modelled from the spec: the memory manager is absent. `free_page` releases a page. -/
def free_page (k : Kernel) (ptr : Nat) : Kernel :=
  { k.emit (.free_page ptr) with pages := k.pages.erase ptr }

/-- Modelled from the spec: the identifier allocator is absent. The state after a
call of `pid_alloc` that returned `r` (`0` when none is available); an identifier it
issues is taken until `pid_free`. -/
def pid_alloc (k : Kernel) (r : Nat) : Kernel :=
  { k.emit (.pid_alloc r) with pids := if r = 0 then k.pids else r :: k.pids }

/-- Modelled from the spec: the identifier allocator is absent. `pid_free` reclaims
an identifier. -/
def pid_free (k : Kernel) (pid : Nat) : Kernel :=
  { k.emit (.pid_free pid) with pids := k.pids.erase pid }

/-- Modelled from the spec: the timer subsystem is absent. The state after a call of
`timer_init` that returned `rc`; when it succeeds the timer is tagged with the name
and the callback context and is not armed, when it fails the timer is as it was. -/
def timer_init (k : Kernel) (task : Nat) (name : String) (context : Nat) (rc : Int) :
    Kernel :=
  (k.emit (.timer_init task rc)).update task fun ts =>
    if rc < 0 then ts
    else { ts with timer := { initialised := true, name := name, context := context,
                              armed := none } }

/-- Modelled from the spec: the timer subsystem is absent. `timer_start` arms the
one-shot timer for `tick` ticks. -/
def timer_start (k : Kernel) (task : Nat) (tick : Nat) : Kernel :=
  (k.emit (.timer_start task tick)).update task fun ts =>
    { ts with timer := { ts.timer with armed := some tick } }

/-- Modelled from the spec: the timer subsystem is absent. `timer_stop` cancels a
pending timeout. -/
def timer_stop (k : Kernel) (task : Nat) : Kernel :=
  (k.emit (.timer_stop task)).update task fun ts =>
    { ts with timer := { ts.timer with armed := none } }

/-- Modelled from the spec: the ready queue is absent. `add_task_to_ready_list`
links the task at the tail of the bucket of its current priority and marks it
`TASK_READY`. -/
def add_task_to_ready_list (k : Kernel) (task : Nat) : Kernel :=
  let k := k.emit (.add_task_to_ready_list task)
  let k := list_add_tail k (.list task) (.ready_task_list (k.mem task).current_priority)
  k.update task fun ts => { ts with status := .TASK_READY }

/-- Modelled from the spec: the ready queue is absent. `del_task_to_ready_list`
unlinks the task from the ready queue. -/
def del_task_to_ready_list (k : Kernel) (task : Nat) : Kernel :=
  let k := k.emit (.del_task_to_ready_list task)
  { k with lists := fun h =>
      match h with
      | .ready_task_list p => (k.lists (.ready_task_list p)).filter
          (fun m => decide (m ≠ node_ref.list task))
      | h => k.lists h }

/-- Modelled from the spec: the context-switch trigger is absent. `switch_task`
requests a reschedule. -/
def switch_task (k : Kernel) : Kernel := k.emit .switch_task

/-- Membership of a task in the ready queue: some bucket reaches its `list` node. -/
def in_ready_queue (k : Kernel) (task : Nat) : Prop :=
  ∃ p, node_ref.list task ∈ k.lists (.ready_task_list p)

/-- Membership of a task in some wait list. -/
def in_wait_list (k : Kernel) (task : Nat) : Prop :=
  ∃ i, node_ref.list task ∈ k.lists (.wait_list i)

/-! ## `task.c` -/

/-- Lines 38-58, the timer callback `timeout`. -/
def timeout (k : Kernel) (task : Nat) : Kernel × Ret Unit :=
  if task = 0 then (k, .bug)
  else if (k.mem task).status ≠ .TASK_WAIT then (k, .bug)
  else
    let k := k.update task fun ts => { ts with flag := -ETIMEDOUT }
    let k :=
      match (k.mem task).list_lock with
      | some _ =>
        let k := list_del k (.list task)
        set_list_lock k task none
      | none => k
    let k := add_task_to_ready_list k task
    let k := switch_task k
    (k, .ret ())

/-- Lines 60-72, `alloc_task_info`; `r` is what `alloc_page` returns. -/
def alloc_task_info (k : Kernel) (r : Nat) (task : Nat) : Kernel × Nat :=
  let info := r
  let k := alloc_page k info
  if info = 0 then (k, 0)
  else ({ k with info_task := fun a => if a = info then task else k.info_task a }, info)

/-- Lines 74-77, `free_task_info`. -/
def free_task_info (k : Kernel) (info : Nat) : Kernel :=
  free_page k info

/-- Lines 79-131, `__task_create`; `sp` is what `stack_init` returns and `timer_rc`
what `timer_init` returns. -/
def __task_create (cfg : Config) (k : Kernel) (task : Nat) (name : String)
    (entry parameter stack_start priority tick clean : Nat) (sp : Nat) (timer_rc : Int) :
    Kernel × Int :=
  let k := INIT_LIST_HEAD k (.list task)
  let k := INIT_LIST_HEAD k (.tlist task)
  let k := set_list_lock k task none
  let k := k.update task fun ts =>
    { ts with name := name, entry := entry, parameter := parameter, stack := stack_start }
  let k := (k.emit (.stack_init task)).update task fun ts => { ts with sp := sp }
  let k := k.update task fun ts =>
    { ts with init_priority := priority, current_priority := priority }
  let k := k.update task fun ts =>
    if 32 < cfg.CONFIG_MAX_PRIORITY then
      { ts with offset := priority >>> 3,
                offset_mask := (1 <<< (priority >>> 3)) % WORD,
                prio_mask := (1 <<< (priority &&& 7)) % WORD }
    else
      { ts with offset_mask := (1 <<< priority) % WORD }
  let k := k.update task fun ts => { ts with init_tick := tick, remaining_tick := tick }
  let k := set_status k task .TASK_SUSPEND
  let k := k.update task fun ts =>
    { ts with cleanup := clean, flag := 0, start_time := 0, run_time := 0, sys_cycle := 0,
              save_sys_cycle := 0, save_run_time := 0 }
  let k := list_add_tail k (.tlist task) .task_list
  let rc := timer_rc
  let k := timer_init k task name task rc
  let k := if rc < 0 then pr_err k "__task_create" 127 else k
  (k, rc)

/-- Lines 146-151: the range check on the priority, compiled in only when
`CONFIG_MAX_PRIORITY < 256`. -/
def priority_out_of_range (cfg : Config) (priority : Nat) : Bool :=
  decide (cfg.CONFIG_MAX_PRIORITY < 256) && decide (cfg.CONFIG_MAX_PRIORITY ≤ priority)

/-- Lines 164-168: where the stack starts inside the task-info page. -/
def stack_start_of (cfg : Config) (info : Nat) : Nat :=
  if cfg.CONFIG_STACK_GROWSUP then (info + cfg.sizeof_task_info) % WORD
  else (info + cfg.sizeof_task_union + (WORD - cfg.sizeof_addr_t % WORD)) % WORD

/-- Lines 133-194, `task_create`. The arguments `priority` (`uint8_t`) and `tick`
(`uint32_t`) are truncated to their C types on entry. Returns the task pointer,
`0` for `NULL`. What the collaborators return during the call is read from `env`. -/
def task_create (cfg : Config) (env : create_env) (k : Kernel) (name : String)
    (entry parameter priority tick clean : Nat) : Kernel × Nat :=
  let priority := priority % 256
  let tick := tick % 2 ^ 32
  if priority_out_of_range cfg priority then (pr_err k "task_create" 148, 0)
  else
    let task := env.kalloc
    let k := kalloc k task
    if task = 0 then (pr_err k "task_create" 155, 0)
    else
      let r := alloc_task_info k env.alloc_page task
      let k := r.1
      let info := r.2
      if info = 0 then (kfree (pr_err k "task_create" 161) task, 0)
      else
        let stack_start := stack_start_of cfg info
        let pid := env.pid_alloc
        let k := pid_alloc k pid
        if pid = 0 then
          (kfree (free_task_info (pr_err k "task_create" 172) info) task, 0)
        else
          let k := k.update task fun ts => { ts with pid := pid }
          let r := __task_create cfg k task name entry parameter stack_start priority
            tick clean env.stack_init env.timer_init
          let k := r.1
          let rc := r.2
          if rc < 0 then
            (kfree (free_task_info (pid_free (pr_err k "task_create" 180) pid) info) task, 0)
          else (k, task)

/-- Lines 196-212, `task_ready`. -/
def task_ready (k : Kernel) (task : Nat) : Kernel × Int :=
  if task = 0 then (pr_err k "task_ready" 199, -EINVAL)
  else if (k.mem task).status = .TASK_READY ∨ (k.mem task).status = .TASK_RUNING then
    (pr_warning k "task_ready" 204, -EINVAL)
  else
    let k := add_task_to_ready_list k task
    let k := switch_task k
    (k, 0)

/-- Lines 214-228, `task_yield_cpu`. -/
def task_yield_cpu (k : Kernel) : Kernel × Ret Int :=
  let task := k.current
  if (k.mem task).status = .TASK_RUNING then
    let k := del_task_to_ready_list k task
    let k := add_task_to_ready_list k task
    let k := switch_task k
    (k, .ret 0)
  else (k, .bug)

/-- Lines 230-256, `task_del`. -/
def task_del (k : Kernel) (task : Nat) : Kernel :=
  if task = 0 then pr_err k "task_del" 233
  else
    let k :=
      if (k.mem task).status = .TASK_READY ∨ (k.mem task).status = .TASK_RUNING then
        del_task_to_ready_list k task
      else k
    let k := list_del k (.tlist task)
    let k := set_status k task .TASK_CLOSE
    let k := timer_stop k task
    let k := set_list_lock k task (some .close_list_lock)
    let k := list_add_tail k (.list task) .close_task_list
    if task = k.current then switch_task k else k

/-- Lines 30-36, `task_exit`. -/
def task_exit (k : Kernel) : Kernel :=
  task_del k k.current

/-- Lines 258-279, `task_hang`. -/
def task_hang (k : Kernel) (task : Nat) : Kernel × Ret Int :=
  if task = 0 then (pr_err k "task_hang" 261, .ret (-EINVAL))
  else if (k.mem task).status ≠ .TASK_READY ∧ (k.mem task).status ≠ .TASK_RUNING then
    let k := pr_err k "task_hang" 265
    if task = k.current then (k, .bug)
    else (k, .ret (-EINVAL))
  else
    let k := timer_stop k task
    let k := del_task_to_ready_list k task
    let k := set_status k task .TASK_WAIT
    (k, .ret 0)

/-- Lines 281-297, `task_resume`. -/
def task_resume (k : Kernel) (task : Nat) : Kernel × Ret Int :=
  if task = 0 then (pr_err k "task_resume" 284, .ret (-EINVAL))
  else if (k.mem task).status ≠ .TASK_WAIT then
    (pr_err k "task_resume" 288, .bug)
  else
    let k := timer_stop k task
    let k := add_task_to_ready_list k task
    (k, .ret 0)

/-- Lines 299-316, `task_sleep` up to and including the `switch_task()` in which
the caller is switched out. The flag tells whether that point was reached. -/
def task_sleep_block (k : Kernel) (tick : Nat) : Kernel × Ret Int × Bool :=
  let tick := tick % 2 ^ 32
  if tick = 0 then (pr_err k "task_sleep" 305, .ret (-EINVAL), false)
  else
    let task := k.current
    match task_hang k task with
    | (k, .bug) => (k, .bug, false)
    | (k, .ret rc) =>
      if rc ≠ 0 then (pr_err k "task_sleep" 312, .ret rc, false)
      else
        let k := timer_start k task tick
        let k := switch_task k
        (k, .ret 0, true)

/-- Lines 318-321, `task_sleep` after the caller `task` runs again. -/
def task_sleep_wake (k : Kernel) (task : Nat) : Kernel × Ret Int :=
  let k :=
    if (k.mem task).flag = -ETIMEDOUT then k.update task fun ts => { ts with flag := 0 }
    else k
  (k, .ret 0)

/-- Lines 299-322, `task_sleep`. `sched` is what the rest of the system does to the
state between the moment the caller is switched out and the moment it runs again. -/
def task_sleep (k : Kernel) (tick : Nat) (sched : Kernel → Kernel) : Kernel × Ret Int :=
  let task := k.current
  match task_sleep_block k tick with
  | (k, r, false) => (k, r)
  | (k, _, true) => task_sleep_wake (sched k) task

/-- Lines 324-342, `task_set_prio`; `prio` is truncated to `uint8_t` on entry. -/
def task_set_prio (k : Kernel) (task : Nat) (prio : Nat) : Kernel × Int :=
  let prio := prio % 256
  if task = 0 then (pr_err k "task_set_prio" 327, -EINVAL)
  else if (k.mem task).current_priority = prio then (k, 0)
  else
    let k := del_task_to_ready_list k task
    let k := k.update task fun ts => { ts with current_priority := prio }
    let k := add_task_to_ready_list k task
    (k, 0)

/-! ## Concrete configurations and states used to exercise the definitions -/

/-- A configuration with 32 priority levels and a downward-growing stack. -/
def cfg32 : Config :=
  { CONFIG_MAX_PRIORITY := 32, CONFIG_STACK_GROWSUP := false, sizeof_task_info := 64,
    sizeof_task_union := 4096, sizeof_addr_t := 4 }

/-- Contents of memory that was never written. -/
def blank_task : task_struct :=
  { pid := 0, name := "", entry := 0, parameter := 0, stack := 0, sp := 0,
    init_priority := 0, current_priority := 0, offset := 0, offset_mask := 0,
    prio_mask := 0, init_tick := 0, remaining_tick := 0, status := .TASK_SUSPEND,
    cleanup := 0, flag := 0, start_time := 0, run_time := 0, sys_cycle := 0,
    save_sys_cycle := 0, save_run_time := 0, list_lock := none,
    timer := { initialised := false, name := "", context := 0, armed := none } }

/-- The state before any task exists: empty lists, nothing allocated. -/
def boot : Kernel :=
  { mem := fun _ => blank_task, info_task := fun _ => 0, lists := fun _ => [],
    current := 0, kheap := [], pages := [], pids := [], trace := [], console := [],
    history := [] }

/-- Collaborators that all succeed: block at 4096, page at 8192, pid 1. -/
def env_ok : create_env :=
  { kalloc := 4096, alloc_page := 8192, pid_alloc := 1, stack_init := 12200,
    timer_init := 0 }

/-- Collaborators whose allocations succeed while `timer_init` returns `-1`. -/
def env_timer_fails : create_env :=
  { kalloc := 4096, alloc_page := 8192, pid_alloc := 1, stack_init := 12200,
    timer_init := -1 }

/-- Collaborators whose `pid_alloc` has no identifier left. -/
def env_no_pid : create_env :=
  { kalloc := 4096, alloc_page := 8192, pid_alloc := 0, stack_init := 12200,
    timer_init := 0 }

/-- Modelled from the spec: the modules that own wait lists are absent. Blocking a
task on wait list `i` links `task->list` at the tail of that list and stores the
lock of the list in `task->list_lock`. -/
def wait_list_enqueue (k : Kernel) (task i : Nat) : Kernel :=
  (list_add_tail k (.list task) (.wait_list i)).update task fun ts =>
    { ts with list_lock := some (.wait_list_lock i) }

/-- Modelled from the spec: the dispatcher is absent. It selects `task` to run: a
task that was running goes back to `TASK_READY`, `task` becomes `TASK_RUNING` and
`current`. -/
def dispatch (k : Kernel) (task : Nat) : Kernel :=
  let k :=
    if (k.mem k.current).status = .TASK_RUNING then
      k.update k.current fun ts => { ts with status := .TASK_READY }
    else k
  { k.update task fun ts => { ts with status := .TASK_RUNING } with current := task }

/-- Collaborators for a second task: block at 20480, page at 24576, pid 2. -/
def env_second : create_env :=
  { kalloc := 20480, alloc_page := 24576, pid_alloc := 2, stack_init := 28584,
    timer_init := 0 }

/-- After boot, task A (block 4096, priority 5, tick 10) has been created. -/
def k_created : Kernel :=
  (task_create cfg32 env_ok boot "A" 100 0 5 10 0).1

/-- Task A has been made ready. -/
def k_ready : Kernel :=
  (task_ready k_created 4096).1

/-- Task A has been hung by another context. -/
def k_hung : Kernel :=
  (task_hang k_ready 4096).1

/-- Task A, hung, has been queued on wait list 0 by the module owning that list. -/
def k_waiting : Kernel :=
  wait_list_enqueue k_hung 4096 0

/-- Tasks A (block 4096, priority 5) and B (block 20480, priority 3) exist and are
ready, and A is running. -/
def k_two_running : Kernel :=
  dispatch (task_ready (task_ready
    (task_create cfg32 env_second k_created "B" 200 0 3 10 0).1 4096).1 20480).1 4096

/-- Task A has called `task_sleep(10)` and is switched out, B runs. -/
def k_sleeping : Kernel :=
  dispatch (task_sleep_block k_two_running 10).1 20480

/-- Modelled from the spec: the timer subsystem is absent. When the armed one-shot
timer of `task` elapses it is no longer pending and the callback `timeout` runs with
the task as its context; a timer that is not armed does not fire. -/
def timer_expire (k : Kernel) (task : Nat) : Kernel × Ret Unit :=
  match (k.mem task).timer.armed with
  | none => (k, .ret ())
  | some _ =>
    timeout (k.update task fun ts => { ts with timer := { ts.timer with armed := none } }) task

/-- The timer of A has fired while B runs: A is ready again and has not run yet. -/
def k_timed_out : Kernel :=
  (timer_expire k_sleeping 4096).1

/-- Task A has been deleted right after its creation. -/
def k_deleted : Kernel :=
  task_del k_created 4096

/-- Lines 104-110 read as a relation: the priority-class bitmask fields of a control
block are the ones derived from its current priority. -/
def prio_masks_derived (cfg : Config) (ts : task_struct) : Prop :=
  if 32 < cfg.CONFIG_MAX_PRIORITY then
    ts.offset = ts.current_priority >>> 3 ∧
    ts.offset_mask = (1 <<< ts.offset) % WORD ∧
    ts.prio_mask = (1 <<< (ts.current_priority &&& 7)) % WORD
  else
    ts.offset_mask = (1 <<< ts.current_priority) % WORD

instance (cfg : Config) (ts : task_struct) : Decidable (prio_masks_derived cfg ts) := by
  unfold prio_masks_derived
  exact inferInstance

/-- A configuration with 64 priority levels (group offset and mask pair). -/
def cfg64 : Config :=
  { CONFIG_MAX_PRIORITY := 64, CONFIG_STACK_GROWSUP := false, sizeof_task_info := 64,
    sizeof_task_union := 4096, sizeof_addr_t := 4 }

/-- With 64 priority levels, task A (block 4096, priority 40) has been created and
made ready. -/
def k_ready64 : Kernel :=
  (task_ready (task_create cfg64 env_ok boot "A" 100 0 40 10 0).1 4096).1

/-! ## Sequences of calls -/

/-- Whether a call came back (`true`) or stopped in `BUG_ON` (`false`). -/
def Ret.returned {α : Type} : Ret α → Bool
  | .ret _ => true
  | .bug => false

/-- One step of the system: a call into `task.c`, the two halves of `task_sleep`
(before and after the caller is switched out), the timer callback, and the steps of
the absent collaborators that `task.c` relies on (a wait-list owner queueing a task,
the dispatcher selecting a task). -/
inductive Op
  | create (env : create_env) (name : String) (entry parameter priority tick clean : Nat)
  | ready (task : Nat)
  | hang (task : Nat)
  | resume (task : Nat)
  | sleep_block (tick : Nat)
  | sleep_wake (task : Nat)
  | set_prio (task : Nat) (prio : Nat)
  | del (task : Nat)
  | timeout (task : Nat)
  | wait_enqueue (task : Nat) (i : Nat)
  | dispatch (task : Nat)

/-- The state after one step, or `none` when the step cannot be taken: the pointer
passed is not an allocated control block, `kalloc` hands out a block that is still
allocated, a wait-list owner queues a task that is already queued somewhere, or the
call stops in `BUG_ON` and the system halts. -/
def step (cfg : Config) (k : Kernel) : Op → Option Kernel
  | .create env name entry parameter priority tick clean =>
    if env.kalloc ∈ k.kheap then none
    else some (task_create cfg env k name entry parameter priority tick clean).1
  | .ready task =>
    if task ∈ k.kheap then some (task_ready k task).1 else none
  | .hang task =>
    if task ∈ k.kheap ∧ (task_hang k task).2.returned = true then some (task_hang k task).1
    else none
  | .resume task =>
    if task ∈ k.kheap ∧ (task_resume k task).2.returned = true then
      some (task_resume k task).1
    else none
  | .sleep_block tick =>
    if k.current ∈ k.kheap ∧ (task_sleep_block k tick).2.1.returned = true then
      some (task_sleep_block k tick).1
    else none
  | .sleep_wake task =>
    if task ∈ k.kheap then some (task_sleep_wake k task).1 else none
  | .set_prio task prio =>
    if task ∈ k.kheap then some (task_set_prio k task prio).1 else none
  | .del task =>
    if task ∈ k.kheap then some (task_del k task) else none
  | .timeout task =>
    if task ∈ k.kheap ∧ (timeout k task).2.returned = true then some (timeout k task).1
    else none
  | .wait_enqueue task i =>
    if task ∈ k.kheap ∧ (k.mem task).list_lock = none then some (wait_list_enqueue k task i)
    else none
  | .dispatch task =>
    if task ∈ k.kheap then some (dispatch k task) else none

/-- The state after a sequence of steps, `none` as soon as one cannot be taken. -/
def run (cfg : Config) : Kernel → List Op → Option Kernel
  | k, [] => some k
  | k, op :: ops =>
    match step cfg k op with
    | some k2 => run cfg k2 ops
    | none => none

/-- A state in which no task exists yet: every list is empty and no control block
is allocated. -/
def Initial (k : Kernel) : Prop :=
  (∀ h, k.lists h = []) ∧ k.kheap = []

/-- The `list` node of a task is linked into the closed registry or into some wait
list. -/
def in_closed_or_wait (k : Kernel) (task : Nat) : Prop :=
  node_ref.list task ∈ k.lists list_head.close_task_list ∨
    ∃ i, node_ref.list task ∈ k.lists (list_head.wait_list i)

/-- The relation between `list_lock` and list membership that `task.c` maintains: an
allocated control block has a non-null `list_lock` exactly when its `list` node is in
the closed registry or on a wait list, and no list reaches the `list` node of a block
that is not allocated. -/
def list_lock_inv (k : Kernel) : Prop :=
  (∀ t, t ∈ k.kheap → ((k.mem t).list_lock ≠ none ↔ in_closed_or_wait k t)) ∧
  (∀ t, t ∉ k.kheap → ∀ h, node_ref.list t ∉ k.lists h)

/-- The first task of the system is created and deleted. -/
def ops_create_del : List Op :=
  [Op.create env_ok "A" 100 0 5 10 0, Op.del 4096]

/-- The first task of the system is created and deleted twice. -/
def ops_create_del_del : List Op :=
  [Op.create env_ok "A" 100 0 5 10 0, Op.del 4096, Op.del 4096]

/-- A step that writes no `list_lock`, allocates and frees nothing, leaves the closed
registry and the wait lists alone and links only `list` nodes of allocated blocks. -/
def keeps_locks (k k2 : Kernel) : Prop :=
  k2.kheap = k.kheap ∧
  (∀ a, (k2.mem a).list_lock = (k.mem a).list_lock) ∧
  k2.lists list_head.close_task_list = k.lists list_head.close_task_list ∧
  (∀ i, k2.lists (list_head.wait_list i) = k.lists (list_head.wait_list i)) ∧
  (∀ h t, node_ref.list t ∈ k2.lists h → node_ref.list t ∈ k.lists h ∨ t ∈ k.kheap)

/-! ## Frame lemmas: what each step leaves alone, and what it writes -/

@[simp] theorem update_info_task (k : Kernel) (task : Nat) (f : task_struct → task_struct) :
    (Kernel.update k task f).info_task = k.info_task := rfl

@[simp] theorem update_lists (k : Kernel) (task : Nat) (f : task_struct → task_struct) :
    (Kernel.update k task f).lists = k.lists := rfl

@[simp] theorem update_current (k : Kernel) (task : Nat) (f : task_struct → task_struct) :
    (Kernel.update k task f).current = k.current := rfl

@[simp] theorem update_kheap (k : Kernel) (task : Nat) (f : task_struct → task_struct) :
    (Kernel.update k task f).kheap = k.kheap := rfl

@[simp] theorem update_pages (k : Kernel) (task : Nat) (f : task_struct → task_struct) :
    (Kernel.update k task f).pages = k.pages := rfl

@[simp] theorem update_pids (k : Kernel) (task : Nat) (f : task_struct → task_struct) :
    (Kernel.update k task f).pids = k.pids := rfl

@[simp] theorem update_trace (k : Kernel) (task : Nat) (f : task_struct → task_struct) :
    (Kernel.update k task f).trace = k.trace := rfl

@[simp] theorem update_console (k : Kernel) (task : Nat) (f : task_struct → task_struct) :
    (Kernel.update k task f).console = k.console := rfl

@[simp] theorem pr_err_mem (k : Kernel) (func : String) (line : Nat) :
    (pr_err k func line).mem = k.mem := rfl

@[simp] theorem pr_err_info_task (k : Kernel) (func : String) (line : Nat) :
    (pr_err k func line).info_task = k.info_task := rfl

@[simp] theorem pr_err_lists (k : Kernel) (func : String) (line : Nat) :
    (pr_err k func line).lists = k.lists := rfl

@[simp] theorem pr_err_current (k : Kernel) (func : String) (line : Nat) :
    (pr_err k func line).current = k.current := rfl

@[simp] theorem pr_err_kheap (k : Kernel) (func : String) (line : Nat) :
    (pr_err k func line).kheap = k.kheap := rfl

@[simp] theorem pr_err_pages (k : Kernel) (func : String) (line : Nat) :
    (pr_err k func line).pages = k.pages := rfl

@[simp] theorem pr_err_pids (k : Kernel) (func : String) (line : Nat) :
    (pr_err k func line).pids = k.pids := rfl

@[simp] theorem pr_err_trace (k : Kernel) (func : String) (line : Nat) :
    (pr_err k func line).trace = k.trace := rfl

@[simp] theorem pr_warning_mem (k : Kernel) (func : String) (line : Nat) :
    (pr_warning k func line).mem = k.mem := rfl

@[simp] theorem pr_warning_info_task (k : Kernel) (func : String) (line : Nat) :
    (pr_warning k func line).info_task = k.info_task := rfl

@[simp] theorem pr_warning_lists (k : Kernel) (func : String) (line : Nat) :
    (pr_warning k func line).lists = k.lists := rfl

@[simp] theorem pr_warning_current (k : Kernel) (func : String) (line : Nat) :
    (pr_warning k func line).current = k.current := rfl

@[simp] theorem pr_warning_kheap (k : Kernel) (func : String) (line : Nat) :
    (pr_warning k func line).kheap = k.kheap := rfl

@[simp] theorem pr_warning_pages (k : Kernel) (func : String) (line : Nat) :
    (pr_warning k func line).pages = k.pages := rfl

@[simp] theorem pr_warning_pids (k : Kernel) (func : String) (line : Nat) :
    (pr_warning k func line).pids = k.pids := rfl

@[simp] theorem pr_warning_trace (k : Kernel) (func : String) (line : Nat) :
    (pr_warning k func line).trace = k.trace := rfl

@[simp] theorem emit_mem (k : Kernel) (e : Event) :
    (Kernel.emit k e).mem = k.mem := rfl

@[simp] theorem emit_info_task (k : Kernel) (e : Event) :
    (Kernel.emit k e).info_task = k.info_task := rfl

@[simp] theorem emit_lists (k : Kernel) (e : Event) :
    (Kernel.emit k e).lists = k.lists := rfl

@[simp] theorem emit_current (k : Kernel) (e : Event) :
    (Kernel.emit k e).current = k.current := rfl

@[simp] theorem emit_kheap (k : Kernel) (e : Event) :
    (Kernel.emit k e).kheap = k.kheap := rfl

@[simp] theorem emit_pages (k : Kernel) (e : Event) :
    (Kernel.emit k e).pages = k.pages := rfl

@[simp] theorem emit_pids (k : Kernel) (e : Event) :
    (Kernel.emit k e).pids = k.pids := rfl

@[simp] theorem emit_console (k : Kernel) (e : Event) :
    (Kernel.emit k e).console = k.console := rfl

@[simp] theorem INIT_LIST_HEAD_mem (k : Kernel) (n : node_ref) :
    (INIT_LIST_HEAD k n).mem = k.mem := rfl

@[simp] theorem INIT_LIST_HEAD_info_task (k : Kernel) (n : node_ref) :
    (INIT_LIST_HEAD k n).info_task = k.info_task := rfl

@[simp] theorem INIT_LIST_HEAD_lists (k : Kernel) (n : node_ref) :
    (INIT_LIST_HEAD k n).lists = k.lists := rfl

@[simp] theorem INIT_LIST_HEAD_current (k : Kernel) (n : node_ref) :
    (INIT_LIST_HEAD k n).current = k.current := rfl

@[simp] theorem INIT_LIST_HEAD_kheap (k : Kernel) (n : node_ref) :
    (INIT_LIST_HEAD k n).kheap = k.kheap := rfl

@[simp] theorem INIT_LIST_HEAD_pages (k : Kernel) (n : node_ref) :
    (INIT_LIST_HEAD k n).pages = k.pages := rfl

@[simp] theorem INIT_LIST_HEAD_pids (k : Kernel) (n : node_ref) :
    (INIT_LIST_HEAD k n).pids = k.pids := rfl

@[simp] theorem INIT_LIST_HEAD_trace (k : Kernel) (n : node_ref) :
    (INIT_LIST_HEAD k n).trace = k.trace := rfl

@[simp] theorem INIT_LIST_HEAD_console (k : Kernel) (n : node_ref) :
    (INIT_LIST_HEAD k n).console = k.console := rfl

@[simp] theorem list_add_tail_mem (k : Kernel) (n : node_ref) (head : list_head) :
    (list_add_tail k n head).mem = k.mem := rfl

@[simp] theorem list_add_tail_info_task (k : Kernel) (n : node_ref) (head : list_head) :
    (list_add_tail k n head).info_task = k.info_task := rfl

@[simp] theorem list_add_tail_current (k : Kernel) (n : node_ref) (head : list_head) :
    (list_add_tail k n head).current = k.current := rfl

@[simp] theorem list_add_tail_kheap (k : Kernel) (n : node_ref) (head : list_head) :
    (list_add_tail k n head).kheap = k.kheap := rfl

@[simp] theorem list_add_tail_pages (k : Kernel) (n : node_ref) (head : list_head) :
    (list_add_tail k n head).pages = k.pages := rfl

@[simp] theorem list_add_tail_pids (k : Kernel) (n : node_ref) (head : list_head) :
    (list_add_tail k n head).pids = k.pids := rfl

@[simp] theorem list_add_tail_trace (k : Kernel) (n : node_ref) (head : list_head) :
    (list_add_tail k n head).trace = k.trace := rfl

@[simp] theorem list_add_tail_console (k : Kernel) (n : node_ref) (head : list_head) :
    (list_add_tail k n head).console = k.console := rfl

@[simp] theorem list_del_mem (k : Kernel) (n : node_ref) :
    (list_del k n).mem = k.mem := rfl

@[simp] theorem list_del_info_task (k : Kernel) (n : node_ref) :
    (list_del k n).info_task = k.info_task := rfl

@[simp] theorem list_del_current (k : Kernel) (n : node_ref) :
    (list_del k n).current = k.current := rfl

@[simp] theorem list_del_kheap (k : Kernel) (n : node_ref) :
    (list_del k n).kheap = k.kheap := rfl

@[simp] theorem list_del_pages (k : Kernel) (n : node_ref) :
    (list_del k n).pages = k.pages := rfl

@[simp] theorem list_del_pids (k : Kernel) (n : node_ref) :
    (list_del k n).pids = k.pids := rfl

@[simp] theorem list_del_trace (k : Kernel) (n : node_ref) :
    (list_del k n).trace = k.trace := rfl

@[simp] theorem list_del_console (k : Kernel) (n : node_ref) :
    (list_del k n).console = k.console := rfl

@[simp] theorem kalloc_mem (k : Kernel) (r : Nat) :
    (kalloc k r).mem = k.mem := rfl

@[simp] theorem kalloc_info_task (k : Kernel) (r : Nat) :
    (kalloc k r).info_task = k.info_task := rfl

@[simp] theorem kalloc_lists (k : Kernel) (r : Nat) :
    (kalloc k r).lists = k.lists := rfl

@[simp] theorem kalloc_current (k : Kernel) (r : Nat) :
    (kalloc k r).current = k.current := rfl

@[simp] theorem kalloc_pages (k : Kernel) (r : Nat) :
    (kalloc k r).pages = k.pages := rfl

@[simp] theorem kalloc_pids (k : Kernel) (r : Nat) :
    (kalloc k r).pids = k.pids := rfl

@[simp] theorem kalloc_console (k : Kernel) (r : Nat) :
    (kalloc k r).console = k.console := rfl

@[simp] theorem kfree_mem (k : Kernel) (ptr : Nat) :
    (kfree k ptr).mem = k.mem := rfl

@[simp] theorem kfree_info_task (k : Kernel) (ptr : Nat) :
    (kfree k ptr).info_task = k.info_task := rfl

@[simp] theorem kfree_lists (k : Kernel) (ptr : Nat) :
    (kfree k ptr).lists = k.lists := rfl

@[simp] theorem kfree_current (k : Kernel) (ptr : Nat) :
    (kfree k ptr).current = k.current := rfl

@[simp] theorem kfree_pages (k : Kernel) (ptr : Nat) :
    (kfree k ptr).pages = k.pages := rfl

@[simp] theorem kfree_pids (k : Kernel) (ptr : Nat) :
    (kfree k ptr).pids = k.pids := rfl

@[simp] theorem kfree_console (k : Kernel) (ptr : Nat) :
    (kfree k ptr).console = k.console := rfl

@[simp] theorem alloc_page_mem (k : Kernel) (r : Nat) :
    (alloc_page k r).mem = k.mem := rfl

@[simp] theorem alloc_page_info_task (k : Kernel) (r : Nat) :
    (alloc_page k r).info_task = k.info_task := rfl

@[simp] theorem alloc_page_lists (k : Kernel) (r : Nat) :
    (alloc_page k r).lists = k.lists := rfl

@[simp] theorem alloc_page_current (k : Kernel) (r : Nat) :
    (alloc_page k r).current = k.current := rfl

@[simp] theorem alloc_page_kheap (k : Kernel) (r : Nat) :
    (alloc_page k r).kheap = k.kheap := rfl

@[simp] theorem alloc_page_pids (k : Kernel) (r : Nat) :
    (alloc_page k r).pids = k.pids := rfl

@[simp] theorem alloc_page_console (k : Kernel) (r : Nat) :
    (alloc_page k r).console = k.console := rfl

@[simp] theorem free_page_mem (k : Kernel) (ptr : Nat) :
    (free_page k ptr).mem = k.mem := rfl

@[simp] theorem free_page_info_task (k : Kernel) (ptr : Nat) :
    (free_page k ptr).info_task = k.info_task := rfl

@[simp] theorem free_page_lists (k : Kernel) (ptr : Nat) :
    (free_page k ptr).lists = k.lists := rfl

@[simp] theorem free_page_current (k : Kernel) (ptr : Nat) :
    (free_page k ptr).current = k.current := rfl

@[simp] theorem free_page_kheap (k : Kernel) (ptr : Nat) :
    (free_page k ptr).kheap = k.kheap := rfl

@[simp] theorem free_page_pids (k : Kernel) (ptr : Nat) :
    (free_page k ptr).pids = k.pids := rfl

@[simp] theorem free_page_console (k : Kernel) (ptr : Nat) :
    (free_page k ptr).console = k.console := rfl

@[simp] theorem pid_alloc_mem (k : Kernel) (r : Nat) :
    (pid_alloc k r).mem = k.mem := rfl

@[simp] theorem pid_alloc_info_task (k : Kernel) (r : Nat) :
    (pid_alloc k r).info_task = k.info_task := rfl

@[simp] theorem pid_alloc_lists (k : Kernel) (r : Nat) :
    (pid_alloc k r).lists = k.lists := rfl

@[simp] theorem pid_alloc_current (k : Kernel) (r : Nat) :
    (pid_alloc k r).current = k.current := rfl

@[simp] theorem pid_alloc_kheap (k : Kernel) (r : Nat) :
    (pid_alloc k r).kheap = k.kheap := rfl

@[simp] theorem pid_alloc_pages (k : Kernel) (r : Nat) :
    (pid_alloc k r).pages = k.pages := rfl

@[simp] theorem pid_alloc_console (k : Kernel) (r : Nat) :
    (pid_alloc k r).console = k.console := rfl

@[simp] theorem pid_free_mem (k : Kernel) (pid : Nat) :
    (pid_free k pid).mem = k.mem := rfl

@[simp] theorem pid_free_info_task (k : Kernel) (pid : Nat) :
    (pid_free k pid).info_task = k.info_task := rfl

@[simp] theorem pid_free_lists (k : Kernel) (pid : Nat) :
    (pid_free k pid).lists = k.lists := rfl

@[simp] theorem pid_free_current (k : Kernel) (pid : Nat) :
    (pid_free k pid).current = k.current := rfl

@[simp] theorem pid_free_kheap (k : Kernel) (pid : Nat) :
    (pid_free k pid).kheap = k.kheap := rfl

@[simp] theorem pid_free_pages (k : Kernel) (pid : Nat) :
    (pid_free k pid).pages = k.pages := rfl

@[simp] theorem pid_free_console (k : Kernel) (pid : Nat) :
    (pid_free k pid).console = k.console := rfl

@[simp] theorem timer_init_info_task (k : Kernel) (task : Nat) (name : String) (context : Nat) (rc : Int) :
    (timer_init k task name context rc).info_task = k.info_task := rfl

@[simp] theorem timer_init_lists (k : Kernel) (task : Nat) (name : String) (context : Nat) (rc : Int) :
    (timer_init k task name context rc).lists = k.lists := rfl

@[simp] theorem timer_init_current (k : Kernel) (task : Nat) (name : String) (context : Nat) (rc : Int) :
    (timer_init k task name context rc).current = k.current := rfl

@[simp] theorem timer_init_kheap (k : Kernel) (task : Nat) (name : String) (context : Nat) (rc : Int) :
    (timer_init k task name context rc).kheap = k.kheap := rfl

@[simp] theorem timer_init_pages (k : Kernel) (task : Nat) (name : String) (context : Nat) (rc : Int) :
    (timer_init k task name context rc).pages = k.pages := rfl

@[simp] theorem timer_init_pids (k : Kernel) (task : Nat) (name : String) (context : Nat) (rc : Int) :
    (timer_init k task name context rc).pids = k.pids := rfl

@[simp] theorem timer_init_console (k : Kernel) (task : Nat) (name : String) (context : Nat) (rc : Int) :
    (timer_init k task name context rc).console = k.console := rfl

@[simp] theorem timer_start_info_task (k : Kernel) (task : Nat) (tick : Nat) :
    (timer_start k task tick).info_task = k.info_task := rfl

@[simp] theorem timer_start_lists (k : Kernel) (task : Nat) (tick : Nat) :
    (timer_start k task tick).lists = k.lists := rfl

@[simp] theorem timer_start_current (k : Kernel) (task : Nat) (tick : Nat) :
    (timer_start k task tick).current = k.current := rfl

@[simp] theorem timer_start_kheap (k : Kernel) (task : Nat) (tick : Nat) :
    (timer_start k task tick).kheap = k.kheap := rfl

@[simp] theorem timer_start_pages (k : Kernel) (task : Nat) (tick : Nat) :
    (timer_start k task tick).pages = k.pages := rfl

@[simp] theorem timer_start_pids (k : Kernel) (task : Nat) (tick : Nat) :
    (timer_start k task tick).pids = k.pids := rfl

@[simp] theorem timer_start_console (k : Kernel) (task : Nat) (tick : Nat) :
    (timer_start k task tick).console = k.console := rfl

@[simp] theorem timer_stop_info_task (k : Kernel) (task : Nat) :
    (timer_stop k task).info_task = k.info_task := rfl

@[simp] theorem timer_stop_lists (k : Kernel) (task : Nat) :
    (timer_stop k task).lists = k.lists := rfl

@[simp] theorem timer_stop_current (k : Kernel) (task : Nat) :
    (timer_stop k task).current = k.current := rfl

@[simp] theorem timer_stop_kheap (k : Kernel) (task : Nat) :
    (timer_stop k task).kheap = k.kheap := rfl

@[simp] theorem timer_stop_pages (k : Kernel) (task : Nat) :
    (timer_stop k task).pages = k.pages := rfl

@[simp] theorem timer_stop_pids (k : Kernel) (task : Nat) :
    (timer_stop k task).pids = k.pids := rfl

@[simp] theorem timer_stop_console (k : Kernel) (task : Nat) :
    (timer_stop k task).console = k.console := rfl

@[simp] theorem add_task_to_ready_list_info_task (k : Kernel) (task : Nat) :
    (add_task_to_ready_list k task).info_task = k.info_task := rfl

@[simp] theorem add_task_to_ready_list_current (k : Kernel) (task : Nat) :
    (add_task_to_ready_list k task).current = k.current := rfl

@[simp] theorem add_task_to_ready_list_kheap (k : Kernel) (task : Nat) :
    (add_task_to_ready_list k task).kheap = k.kheap := rfl

@[simp] theorem add_task_to_ready_list_pages (k : Kernel) (task : Nat) :
    (add_task_to_ready_list k task).pages = k.pages := rfl

@[simp] theorem add_task_to_ready_list_pids (k : Kernel) (task : Nat) :
    (add_task_to_ready_list k task).pids = k.pids := rfl

@[simp] theorem add_task_to_ready_list_console (k : Kernel) (task : Nat) :
    (add_task_to_ready_list k task).console = k.console := rfl

@[simp] theorem del_task_to_ready_list_mem (k : Kernel) (task : Nat) :
    (del_task_to_ready_list k task).mem = k.mem := rfl

@[simp] theorem del_task_to_ready_list_info_task (k : Kernel) (task : Nat) :
    (del_task_to_ready_list k task).info_task = k.info_task := rfl

@[simp] theorem del_task_to_ready_list_current (k : Kernel) (task : Nat) :
    (del_task_to_ready_list k task).current = k.current := rfl

@[simp] theorem del_task_to_ready_list_kheap (k : Kernel) (task : Nat) :
    (del_task_to_ready_list k task).kheap = k.kheap := rfl

@[simp] theorem del_task_to_ready_list_pages (k : Kernel) (task : Nat) :
    (del_task_to_ready_list k task).pages = k.pages := rfl

@[simp] theorem del_task_to_ready_list_pids (k : Kernel) (task : Nat) :
    (del_task_to_ready_list k task).pids = k.pids := rfl

@[simp] theorem del_task_to_ready_list_console (k : Kernel) (task : Nat) :
    (del_task_to_ready_list k task).console = k.console := rfl

@[simp] theorem switch_task_mem (k : Kernel)  :
    (switch_task k).mem = k.mem := rfl

@[simp] theorem switch_task_info_task (k : Kernel)  :
    (switch_task k).info_task = k.info_task := rfl

@[simp] theorem switch_task_lists (k : Kernel)  :
    (switch_task k).lists = k.lists := rfl

@[simp] theorem switch_task_current (k : Kernel)  :
    (switch_task k).current = k.current := rfl

@[simp] theorem switch_task_kheap (k : Kernel)  :
    (switch_task k).kheap = k.kheap := rfl

@[simp] theorem switch_task_pages (k : Kernel)  :
    (switch_task k).pages = k.pages := rfl

@[simp] theorem switch_task_pids (k : Kernel)  :
    (switch_task k).pids = k.pids := rfl

@[simp] theorem switch_task_console (k : Kernel)  :
    (switch_task k).console = k.console := rfl

@[simp] theorem update_mem (k : Kernel) (task : Nat) (f : task_struct → task_struct) (a : Nat) :
    (Kernel.update k task f).mem a = if a = task then f (k.mem task) else k.mem a := rfl

@[simp] theorem pr_err_console (k : Kernel) (func : String) (line : Nat) :
    (pr_err k func line).console = k.console ++ [log_line.err func line] := rfl

@[simp] theorem pr_warning_console (k : Kernel) (func : String) (line : Nat) :
    (pr_warning k func line).console = k.console ++ [log_line.warning func line] := rfl

@[simp] theorem emit_trace (k : Kernel) (e : Event) :
    (Kernel.emit k e).trace = k.trace ++ [e] := rfl

@[simp] theorem list_add_tail_lists (k : Kernel) (n : node_ref) (head h : list_head) :
    (list_add_tail k n head).lists h = if h = head then k.lists h ++ [n] else k.lists h := rfl

@[simp] theorem list_del_lists (k : Kernel) (n : node_ref) (h : list_head) :
    (list_del k n).lists h = (k.lists h).filter (fun m => decide (m ≠ n)) := rfl

@[simp] theorem kalloc_trace (k : Kernel) (r : Nat) :
    (kalloc k r).trace = k.trace ++ [Event.kalloc r] := rfl

@[simp] theorem kalloc_kheap (k : Kernel) (r : Nat) :
    (kalloc k r).kheap = if r = 0 then k.kheap else r :: k.kheap := rfl

@[simp] theorem kfree_trace (k : Kernel) (ptr : Nat) :
    (kfree k ptr).trace = k.trace ++ [Event.kfree ptr] := rfl

@[simp] theorem kfree_kheap (k : Kernel) (ptr : Nat) :
    (kfree k ptr).kheap = k.kheap.erase ptr := rfl

@[simp] theorem alloc_page_trace (k : Kernel) (r : Nat) :
    (alloc_page k r).trace = k.trace ++ [Event.alloc_page r] := rfl

@[simp] theorem alloc_page_pages (k : Kernel) (r : Nat) :
    (alloc_page k r).pages = if r = 0 then k.pages else r :: k.pages := rfl

@[simp] theorem free_page_trace (k : Kernel) (ptr : Nat) :
    (free_page k ptr).trace = k.trace ++ [Event.free_page ptr] := rfl

@[simp] theorem free_page_pages (k : Kernel) (ptr : Nat) :
    (free_page k ptr).pages = k.pages.erase ptr := rfl

@[simp] theorem pid_alloc_trace (k : Kernel) (r : Nat) :
    (pid_alloc k r).trace = k.trace ++ [Event.pid_alloc r] := rfl

@[simp] theorem pid_alloc_pids (k : Kernel) (r : Nat) :
    (pid_alloc k r).pids = if r = 0 then k.pids else r :: k.pids := rfl

@[simp] theorem pid_free_trace (k : Kernel) (pid : Nat) :
    (pid_free k pid).trace = k.trace ++ [Event.pid_free pid] := rfl

@[simp] theorem pid_free_pids (k : Kernel) (pid : Nat) :
    (pid_free k pid).pids = k.pids.erase pid := rfl

@[simp] theorem free_task_info_eq (k : Kernel) (info : Nat) :
    free_task_info k info = free_page k info := rfl

@[simp] theorem timer_init_trace (k : Kernel) (task : Nat) (name : String) (context : Nat)
    (rc : Int) :
    (timer_init k task name context rc).trace = k.trace ++ [Event.timer_init task rc] := rfl

@[simp] theorem timer_init_mem (k : Kernel) (task : Nat) (name : String) (context : Nat)
    (rc : Int) (a : Nat) :
    (timer_init k task name context rc).mem a =
      if a = task then
        (if rc < 0 then k.mem task
         else { k.mem task with
                timer := { initialised := true, name := name, context := context,
                           armed := none } })
      else k.mem a := rfl

@[simp] theorem timer_start_trace (k : Kernel) (task tick : Nat) :
    (timer_start k task tick).trace = k.trace ++ [Event.timer_start task tick] := rfl

@[simp] theorem timer_start_mem (k : Kernel) (task tick : Nat) (a : Nat) :
    (timer_start k task tick).mem a =
      if a = task then { k.mem task with timer := { (k.mem task).timer with armed := some tick } }
      else k.mem a := rfl

@[simp] theorem timer_stop_trace (k : Kernel) (task : Nat) :
    (timer_stop k task).trace = k.trace ++ [Event.timer_stop task] := rfl

@[simp] theorem timer_stop_mem (k : Kernel) (task : Nat) (a : Nat) :
    (timer_stop k task).mem a =
      if a = task then { k.mem task with timer := { (k.mem task).timer with armed := none } }
      else k.mem a := rfl

@[simp] theorem add_task_to_ready_list_trace (k : Kernel) (task : Nat) :
    (add_task_to_ready_list k task).trace = k.trace ++ [Event.add_task_to_ready_list task] :=
  rfl

@[simp] theorem add_task_to_ready_list_lists (k : Kernel) (task : Nat) (h : list_head) :
    (add_task_to_ready_list k task).lists h =
      if h = list_head.ready_task_list (k.mem task).current_priority then
        k.lists h ++ [node_ref.list task]
      else k.lists h := rfl

@[simp] theorem add_task_to_ready_list_mem (k : Kernel) (task : Nat) (a : Nat) :
    (add_task_to_ready_list k task).mem a =
      if a = task then { k.mem task with status := task_status.TASK_READY } else k.mem a := rfl

@[simp] theorem del_task_to_ready_list_trace (k : Kernel) (task : Nat) :
    (del_task_to_ready_list k task).trace = k.trace ++ [Event.del_task_to_ready_list task] :=
  rfl

@[simp] theorem del_task_to_ready_list_ready (k : Kernel) (task : Nat) (p : Nat) :
    (del_task_to_ready_list k task).lists (list_head.ready_task_list p) =
      (k.lists (list_head.ready_task_list p)).filter
        (fun m => decide (m ≠ node_ref.list task)) := rfl

@[simp] theorem del_task_to_ready_list_task_list (k : Kernel) (task : Nat) :
    (del_task_to_ready_list k task).lists list_head.task_list = k.lists list_head.task_list :=
  rfl

@[simp] theorem del_task_to_ready_list_close (k : Kernel) (task : Nat) :
    (del_task_to_ready_list k task).lists list_head.close_task_list =
      k.lists list_head.close_task_list := rfl

@[simp] theorem del_task_to_ready_list_wait (k : Kernel) (task : Nat) (i : Nat) :
    (del_task_to_ready_list k task).lists (list_head.wait_list i) =
      k.lists (list_head.wait_list i) := rfl

@[simp] theorem switch_task_trace (k : Kernel) :
    (switch_task k).trace = k.trace ++ [Event.switch_task] := rfl

/-! ## Frame lemmas for the history and for the writes that are recorded in it -/

@[simp] theorem log_mem (k : Kernel) (a : Action) :
    (Kernel.log k a).mem = k.mem := rfl

@[simp] theorem log_info_task (k : Kernel) (a : Action) :
    (Kernel.log k a).info_task = k.info_task := rfl

@[simp] theorem log_lists (k : Kernel) (a : Action) :
    (Kernel.log k a).lists = k.lists := rfl

@[simp] theorem log_current (k : Kernel) (a : Action) :
    (Kernel.log k a).current = k.current := rfl

@[simp] theorem log_kheap (k : Kernel) (a : Action) :
    (Kernel.log k a).kheap = k.kheap := rfl

@[simp] theorem log_pages (k : Kernel) (a : Action) :
    (Kernel.log k a).pages = k.pages := rfl

@[simp] theorem log_pids (k : Kernel) (a : Action) :
    (Kernel.log k a).pids = k.pids := rfl

@[simp] theorem log_trace (k : Kernel) (a : Action) :
    (Kernel.log k a).trace = k.trace := rfl

@[simp] theorem log_console (k : Kernel) (a : Action) :
    (Kernel.log k a).console = k.console := rfl

@[simp] theorem set_status_info_task (k : Kernel) (task : Nat) (status : task_status) :
    (set_status k task status).info_task = k.info_task := rfl

@[simp] theorem set_status_lists (k : Kernel) (task : Nat) (status : task_status) :
    (set_status k task status).lists = k.lists := rfl

@[simp] theorem set_status_current (k : Kernel) (task : Nat) (status : task_status) :
    (set_status k task status).current = k.current := rfl

@[simp] theorem set_status_kheap (k : Kernel) (task : Nat) (status : task_status) :
    (set_status k task status).kheap = k.kheap := rfl

@[simp] theorem set_status_pages (k : Kernel) (task : Nat) (status : task_status) :
    (set_status k task status).pages = k.pages := rfl

@[simp] theorem set_status_pids (k : Kernel) (task : Nat) (status : task_status) :
    (set_status k task status).pids = k.pids := rfl

@[simp] theorem set_status_trace (k : Kernel) (task : Nat) (status : task_status) :
    (set_status k task status).trace = k.trace := rfl

@[simp] theorem set_status_console (k : Kernel) (task : Nat) (status : task_status) :
    (set_status k task status).console = k.console := rfl

@[simp] theorem set_list_lock_info_task (k : Kernel) (task : Nat) (lock : Option list_lock_ref) :
    (set_list_lock k task lock).info_task = k.info_task := rfl

@[simp] theorem set_list_lock_lists (k : Kernel) (task : Nat) (lock : Option list_lock_ref) :
    (set_list_lock k task lock).lists = k.lists := rfl

@[simp] theorem set_list_lock_current (k : Kernel) (task : Nat) (lock : Option list_lock_ref) :
    (set_list_lock k task lock).current = k.current := rfl

@[simp] theorem set_list_lock_kheap (k : Kernel) (task : Nat) (lock : Option list_lock_ref) :
    (set_list_lock k task lock).kheap = k.kheap := rfl

@[simp] theorem set_list_lock_pages (k : Kernel) (task : Nat) (lock : Option list_lock_ref) :
    (set_list_lock k task lock).pages = k.pages := rfl

@[simp] theorem set_list_lock_pids (k : Kernel) (task : Nat) (lock : Option list_lock_ref) :
    (set_list_lock k task lock).pids = k.pids := rfl

@[simp] theorem set_list_lock_trace (k : Kernel) (task : Nat) (lock : Option list_lock_ref) :
    (set_list_lock k task lock).trace = k.trace := rfl

@[simp] theorem set_list_lock_console (k : Kernel) (task : Nat) (lock : Option list_lock_ref) :
    (set_list_lock k task lock).console = k.console := rfl

@[simp] theorem update_history (k : Kernel) (task : Nat) (f : task_struct → task_struct) :
    (Kernel.update k task f).history =
      k.history := rfl

@[simp] theorem pr_err_history (k : Kernel) (func : String) (line : Nat) :
    (pr_err k func line).history =
      k.history := rfl

@[simp] theorem pr_warning_history (k : Kernel) (func : String) (line : Nat) :
    (pr_warning k func line).history =
      k.history := rfl

@[simp] theorem emit_history (k : Kernel) (e : Event) :
    (Kernel.emit k e).history =
      k.history ++ [Action.call e] := rfl

@[simp] theorem log_history (k : Kernel) (a : Action) :
    (Kernel.log k a).history =
      k.history ++ [a] := rfl

@[simp] theorem INIT_LIST_HEAD_history (k : Kernel) (n : node_ref) :
    (INIT_LIST_HEAD k n).history =
      k.history := rfl

@[simp] theorem list_add_tail_history (k : Kernel) (n : node_ref) (head : list_head) :
    (list_add_tail k n head).history =
      k.history ++ [Action.list_add_tail n head] := rfl

@[simp] theorem list_del_history (k : Kernel) (n : node_ref) :
    (list_del k n).history =
      k.history ++ [Action.list_del n] := rfl

@[simp] theorem set_status_history (k : Kernel) (task : Nat) (status : task_status) :
    (set_status k task status).history =
      k.history ++ [Action.write_status task status] := rfl

@[simp] theorem set_list_lock_history (k : Kernel) (task : Nat) (lock : Option list_lock_ref) :
    (set_list_lock k task lock).history =
      k.history ++ [Action.write_list_lock task lock] := rfl

@[simp] theorem kalloc_history (k : Kernel) (r : Nat) :
    (kalloc k r).history =
      k.history ++ [Action.call (Event.kalloc r)] := rfl

@[simp] theorem kfree_history (k : Kernel) (ptr : Nat) :
    (kfree k ptr).history =
      k.history ++ [Action.call (Event.kfree ptr)] := rfl

@[simp] theorem alloc_page_history (k : Kernel) (r : Nat) :
    (alloc_page k r).history =
      k.history ++ [Action.call (Event.alloc_page r)] := rfl

@[simp] theorem free_page_history (k : Kernel) (ptr : Nat) :
    (free_page k ptr).history =
      k.history ++ [Action.call (Event.free_page ptr)] := rfl

@[simp] theorem pid_alloc_history (k : Kernel) (r : Nat) :
    (pid_alloc k r).history =
      k.history ++ [Action.call (Event.pid_alloc r)] := rfl

@[simp] theorem pid_free_history (k : Kernel) (pid : Nat) :
    (pid_free k pid).history =
      k.history ++ [Action.call (Event.pid_free pid)] := rfl

@[simp] theorem timer_init_history (k : Kernel) (task : Nat) (name : String) (context : Nat) (rc : Int) :
    (timer_init k task name context rc).history =
      k.history ++ [Action.call (Event.timer_init task rc)] := rfl

@[simp] theorem timer_start_history (k : Kernel) (task : Nat) (tick : Nat) :
    (timer_start k task tick).history =
      k.history ++ [Action.call (Event.timer_start task tick)] := rfl

@[simp] theorem timer_stop_history (k : Kernel) (task : Nat) :
    (timer_stop k task).history =
      k.history ++ [Action.call (Event.timer_stop task)] := rfl

@[simp] theorem add_task_to_ready_list_history (k : Kernel) (task : Nat) :
    (add_task_to_ready_list k task).history =
      k.history ++ [Action.call (Event.add_task_to_ready_list task)] ++
        [Action.list_add_tail (node_ref.list task)
          (list_head.ready_task_list (k.mem task).current_priority)] := rfl

@[simp] theorem del_task_to_ready_list_history (k : Kernel) (task : Nat) :
    (del_task_to_ready_list k task).history =
      k.history ++ [Action.call (Event.del_task_to_ready_list task)] := rfl

@[simp] theorem switch_task_history (k : Kernel)  :
    (switch_task k).history =
      k.history ++ [Action.call Event.switch_task] := rfl

@[simp] theorem set_status_mem (k : Kernel) (task : Nat) (status : task_status) (a : Nat) :
    (set_status k task status).mem a =
      if a = task then { k.mem task with status := status } else k.mem a := rfl

@[simp] theorem set_list_lock_mem (k : Kernel) (task : Nat) (lock : Option list_lock_ref)
    (a : Nat) :
    (set_list_lock k task lock).mem a =
      if a = task then { k.mem task with list_lock := lock } else k.mem a := rfl

/-! ## What `__task_create` does -/

theorem task_create_init_rc (cfg : Config) (k : Kernel) (task : Nat) (name : String)
    (entry parameter stack_start priority tick clean sp : Nat) (rc : Int) :
    (__task_create cfg k task name entry parameter stack_start priority tick clean sp rc).2 = rc := rfl

theorem task_create_init_trace (cfg : Config) (k : Kernel) (task : Nat) (name : String)
    (entry parameter stack_start priority tick clean sp : Nat) (rc : Int) :
    (__task_create cfg k task name entry parameter stack_start priority tick clean sp rc).1.trace =
      k.trace ++ [Event.stack_init task, Event.timer_init task rc] := by
  simp only [__task_create]
  split <;> simp

theorem task_create_init_lists (cfg : Config) (k : Kernel) (task : Nat) (name : String)
    (entry parameter stack_start priority tick clean sp : Nat) (rc : Int) (h : list_head) :
    (__task_create cfg k task name entry parameter stack_start priority tick clean sp rc).1.lists h =
      if h = list_head.task_list then k.lists h ++ [node_ref.tlist task] else k.lists h := by
  simp only [__task_create]
  split <;> simp

theorem task_create_init_kheap (cfg : Config) (k : Kernel) (task : Nat) (name : String)
    (entry parameter stack_start priority tick clean sp : Nat) (rc : Int) :
    (__task_create cfg k task name entry parameter stack_start priority tick clean sp rc).1.kheap = k.kheap := by
  simp only [__task_create]
  split <;> simp

theorem task_create_init_pages (cfg : Config) (k : Kernel) (task : Nat) (name : String)
    (entry parameter stack_start priority tick clean sp : Nat) (rc : Int) :
    (__task_create cfg k task name entry parameter stack_start priority tick clean sp rc).1.pages = k.pages := by
  simp only [__task_create]
  split <;> simp

theorem task_create_init_pids (cfg : Config) (k : Kernel) (task : Nat) (name : String)
    (entry parameter stack_start priority tick clean sp : Nat) (rc : Int) :
    (__task_create cfg k task name entry parameter stack_start priority tick clean sp rc).1.pids = k.pids := by
  simp only [__task_create]
  split <;> simp

theorem task_create_init_current (cfg : Config) (k : Kernel) (task : Nat) (name : String)
    (entry parameter stack_start priority tick clean sp : Nat) (rc : Int) :
    (__task_create cfg k task name entry parameter stack_start priority tick clean sp rc).1.current = k.current := by
  simp only [__task_create]
  split <;> simp

theorem task_create_init_mem_other (cfg : Config) (k : Kernel) (task : Nat) (name : String)
    (entry parameter stack_start priority tick clean sp : Nat) (rc : Int) (a : Nat) (ha : a ≠ task) :
    (__task_create cfg k task name entry parameter stack_start priority tick clean sp rc).1.mem a = k.mem a := by
  simp only [__task_create]
  split <;> simp [ha]

theorem task_create_init_fields (cfg : Config) (k : Kernel) (task : Nat) (name : String)
    (entry parameter stack_start priority tick clean sp : Nat) (rc : Int) :
    ((__task_create cfg k task name entry parameter stack_start priority tick clean sp rc).1.mem task).status = task_status.TASK_SUSPEND ∧
    ((__task_create cfg k task name entry parameter stack_start priority tick clean sp rc).1.mem task).list_lock = none ∧
    ((__task_create cfg k task name entry parameter stack_start priority tick clean sp rc).1.mem task).flag = 0 ∧
    ((__task_create cfg k task name entry parameter stack_start priority tick clean sp rc).1.mem task).init_priority = priority ∧
    ((__task_create cfg k task name entry parameter stack_start priority tick clean sp rc).1.mem task).current_priority = priority ∧
    ((__task_create cfg k task name entry parameter stack_start priority tick clean sp rc).1.mem task).init_tick = tick ∧
    ((__task_create cfg k task name entry parameter stack_start priority tick clean sp rc).1.mem task).remaining_tick = tick ∧
    ((__task_create cfg k task name entry parameter stack_start priority tick clean sp rc).1.mem task).pid = (k.mem task).pid := by
  by_cases hrc : rc < 0 <;> by_cases hc : 32 < cfg.CONFIG_MAX_PRIORITY <;>
    simp [__task_create, hrc, hc]

/-! ## What `alloc_task_info` does -/

@[simp] theorem alloc_task_info_snd (k : Kernel) (r task : Nat) :
    (alloc_task_info k r task).2 = r := by
  by_cases h : r = 0 <;> simp [alloc_task_info, h]

@[simp] theorem alloc_task_info_trace (k : Kernel) (r task : Nat) :
    (alloc_task_info k r task).1.trace = k.trace ++ [Event.alloc_page r] := by
  by_cases h : r = 0 <;> simp [alloc_task_info, h]

@[simp] theorem alloc_task_info_pages (k : Kernel) (r task : Nat) :
    (alloc_task_info k r task).1.pages = if r = 0 then k.pages else r :: k.pages := by
  by_cases h : r = 0 <;> simp [alloc_task_info, h]

@[simp] theorem alloc_task_info_lists (k : Kernel) (r task : Nat) :
    (alloc_task_info k r task).1.lists = k.lists := by
  by_cases h : r = 0 <;> simp [alloc_task_info, h]

@[simp] theorem alloc_task_info_kheap (k : Kernel) (r task : Nat) :
    (alloc_task_info k r task).1.kheap = k.kheap := by
  by_cases h : r = 0 <;> simp [alloc_task_info, h]

@[simp] theorem alloc_task_info_pids (k : Kernel) (r task : Nat) :
    (alloc_task_info k r task).1.pids = k.pids := by
  by_cases h : r = 0 <;> simp [alloc_task_info, h]

@[simp] theorem alloc_task_info_mem (k : Kernel) (r task : Nat) :
    (alloc_task_info k r task).1.mem = k.mem := by
  by_cases h : r = 0 <;> simp [alloc_task_info, h]

@[simp] theorem alloc_task_info_current (k : Kernel) (r task : Nat) :
    (alloc_task_info k r task).1.current = k.current := by
  by_cases h : r = 0 <;> simp [alloc_task_info, h]

@[simp] theorem alloc_task_info_console (k : Kernel) (r task : Nat) :
    (alloc_task_info k r task).1.console = k.console := by
  by_cases h : r = 0 <;> simp [alloc_task_info, h]

theorem priority_in_range (cfg : Config) (priority : Nat) (hp8 : priority < 256)
    (hprio : priority < cfg.CONFIG_MAX_PRIORITY) :
    priority_out_of_range cfg (priority % 256) = false := by
  simp only [priority_out_of_range, Nat.mod_eq_of_lt hp8, Bool.and_eq_false_iff,
    decide_eq_false_iff_not, not_le]
  exact Or.inr hprio

/-! ## Creation: `task_create` -/

/-- C1 (counterexample): with priority 5 of 32, block, page and pid handed out and
`timer_init` returning `-1`, `task_create` returns `NULL`, not the task. -/
theorem task_create_timer_failure_returns_null :
    5 < cfg32.CONFIG_MAX_PRIORITY ∧ env_timer_fails.kalloc ≠ 0 ∧
    env_timer_fails.alloc_page ≠ 0 ∧ env_timer_fails.pid_alloc ≠ 0 ∧
    env_timer_fails.timer_init < 0 ∧
    (task_create cfg32 env_timer_fails boot "A" 100 0 5 10 0).2 = 0 := by
  decide

/-- C1 (as amended): for a valid priority, when the control block, the page and the
pid are handed out and `timer_init` returns a negative code, `task_create` returns
`NULL`; on the way out it calls `pid_free`, `free_page` and `kfree` once each, on
what this call allocated, so that the sets of allocated blocks, pages and pids are
what they were before the call. -/
theorem task_create_timer_failure_fails (cfg : Config) (env : create_env) (k : Kernel)
    (name : String) (entry parameter priority tick clean : Nat)
    (hp8 : priority < 256) (hprio : priority < cfg.CONFIG_MAX_PRIORITY)
    (hk : env.kalloc ≠ 0) (hpg : env.alloc_page ≠ 0) (hpid : env.pid_alloc ≠ 0)
    (hrc : env.timer_init < 0) :
    (task_create cfg env k name entry parameter priority tick clean).2 = 0 ∧
    (task_create cfg env k name entry parameter priority tick clean).1.trace =
      k.trace ++ [Event.kalloc env.kalloc, Event.alloc_page env.alloc_page,
        Event.pid_alloc env.pid_alloc, Event.stack_init env.kalloc,
        Event.timer_init env.kalloc env.timer_init, Event.pid_free env.pid_alloc,
        Event.free_page env.alloc_page, Event.kfree env.kalloc] ∧
    (task_create cfg env k name entry parameter priority tick clean).1.kheap = k.kheap ∧
    (task_create cfg env k name entry parameter priority tick clean).1.pages = k.pages ∧
    (task_create cfg env k name entry parameter priority tick clean).1.pids = k.pids := by
  have h1 := priority_in_range cfg priority hp8 hprio
  simp [task_create, h1, hk, hpg, hpid, hrc, task_create_init_rc, task_create_init_trace,
    task_create_init_kheap, task_create_init_pages, task_create_init_pids]

/-- C1 (witness): the amended statement at priority 5 of 32 with `timer_init`
returning `-1`. -/
theorem task_create_timer_failure_fails_witness :
    (task_create cfg32 env_timer_fails boot "A" 100 0 5 10 0).2 = 0 ∧
    (task_create cfg32 env_timer_fails boot "A" 100 0 5 10 0).1.trace =
      boot.trace ++ [Event.kalloc env_timer_fails.kalloc,
        Event.alloc_page env_timer_fails.alloc_page,
        Event.pid_alloc env_timer_fails.pid_alloc, Event.stack_init env_timer_fails.kalloc,
        Event.timer_init env_timer_fails.kalloc env_timer_fails.timer_init,
        Event.pid_free env_timer_fails.pid_alloc,
        Event.free_page env_timer_fails.alloc_page, Event.kfree env_timer_fails.kalloc] ∧
    (task_create cfg32 env_timer_fails boot "A" 100 0 5 10 0).1.kheap = boot.kheap ∧
    (task_create cfg32 env_timer_fails boot "A" 100 0 5 10 0).1.pages = boot.pages ∧
    (task_create cfg32 env_timer_fails boot "A" 100 0 5 10 0).1.pids = boot.pids :=
  task_create_timer_failure_fails cfg32 env_timer_fails boot "A" 100 0 5 10 0
    (by decide) (by decide) (by decide) (by decide) (by decide) (by decide)

/-- C2 (the code at the failing input): with `timer_init` returning `-1`,
`task_create` returns `NULL` and has freed the control block at 4096, yet the
live registry, empty before the call, now holds the `tlist` node of that freed
block. -/
theorem task_create_timer_failure_leaves_registry_entry :
    (task_create cfg32 env_timer_fails boot "A" 100 0 5 10 0).2 = 0 ∧
    boot.lists list_head.task_list = [] ∧
    (task_create cfg32 env_timer_fails boot "A" 100 0 5 10 0).1.lists list_head.task_list =
      [node_ref.tlist 4096] ∧
    Event.kfree 4096 ∈ (task_create cfg32 env_timer_fails boot "A" 100 0 5 10 0).1.trace ∧
    4096 ∉ (task_create cfg32 env_timer_fails boot "A" 100 0 5 10 0).1.kheap := by
  decide

/-- C3: when the priority passes the range check and one of the three allocations
fails, `task_create` returns `NULL`; the collaborator calls of the whole call are
exactly the allocation attempts up to the failing one followed by one release of
each earlier allocation, in reverse order (`kalloc` failure: nothing to release;
page failure: `kfree` of the block; pid failure: `free_page` then `kfree`); every
list, the live registry included, is what it was, and so are the allocated blocks,
pages, pids and all control blocks. -/
theorem task_create_allocation_failure (cfg : Config) (env : create_env) (k : Kernel)
    (name : String) (entry parameter priority tick clean : Nat)
    (hrange : priority_out_of_range cfg (priority % 256) = false)
    (hfail : env.kalloc = 0 ∨ env.alloc_page = 0 ∨ env.pid_alloc = 0) :
    (task_create cfg env k name entry parameter priority tick clean).2 = 0 ∧
    (task_create cfg env k name entry parameter priority tick clean).1.trace =
      k.trace ++
        (if env.kalloc = 0 then [Event.kalloc 0]
         else if env.alloc_page = 0 then
           [Event.kalloc env.kalloc, Event.alloc_page 0, Event.kfree env.kalloc]
         else
           [Event.kalloc env.kalloc, Event.alloc_page env.alloc_page, Event.pid_alloc 0,
            Event.free_page env.alloc_page, Event.kfree env.kalloc]) ∧
    (task_create cfg env k name entry parameter priority tick clean).1.lists = k.lists ∧
    (task_create cfg env k name entry parameter priority tick clean).1.kheap = k.kheap ∧
    (task_create cfg env k name entry parameter priority tick clean).1.pages = k.pages ∧
    (task_create cfg env k name entry parameter priority tick clean).1.pids = k.pids ∧
    (task_create cfg env k name entry parameter priority tick clean).1.mem = k.mem := by
  by_cases hk : env.kalloc = 0
  · simp [task_create, hrange, hk]
  · by_cases hpg : env.alloc_page = 0
    · simp [task_create, hrange, hk, hpg]
    · have hpid : env.pid_alloc = 0 := by
        rcases hfail with h | h | h
        · exact absurd h hk
        · exact absurd h hpg
        · exact h
      simp [task_create, hrange, hk, hpg, hpid]

/-- C3 (witness): priority 5 of 32, block and page handed out, no pid left. -/
theorem task_create_allocation_failure_witness :
    (task_create cfg32 env_no_pid boot "A" 100 0 5 10 0).2 = 0 ∧
    (task_create cfg32 env_no_pid boot "A" 100 0 5 10 0).1.trace =
      boot.trace ++
        (if env_no_pid.kalloc = 0 then [Event.kalloc 0]
         else if env_no_pid.alloc_page = 0 then
           [Event.kalloc env_no_pid.kalloc, Event.alloc_page 0, Event.kfree env_no_pid.kalloc]
         else
           [Event.kalloc env_no_pid.kalloc, Event.alloc_page env_no_pid.alloc_page,
            Event.pid_alloc 0, Event.free_page env_no_pid.alloc_page,
            Event.kfree env_no_pid.kalloc]) ∧
    (task_create cfg32 env_no_pid boot "A" 100 0 5 10 0).1.lists = boot.lists ∧
    (task_create cfg32 env_no_pid boot "A" 100 0 5 10 0).1.kheap = boot.kheap ∧
    (task_create cfg32 env_no_pid boot "A" 100 0 5 10 0).1.pages = boot.pages ∧
    (task_create cfg32 env_no_pid boot "A" 100 0 5 10 0).1.pids = boot.pids ∧
    (task_create cfg32 env_no_pid boot "A" 100 0 5 10 0).1.mem = boot.mem :=
  task_create_allocation_failure cfg32 env_no_pid boot "A" 100 0 5 10 0
    (by decide) (by decide)

/-- C4: when `task_create` is called with a priority below `CONFIG_MAX_PRIORITY` and
returns a task `t` (not `NULL`) in state `k2`, then `t` is the block `kalloc` handed
out, its status is `TASK_SUSPEND`, its `list_lock` is `NULL`, its flag is `0`, its
initial and current priority are the requested priority, its initial and remaining
tick are the requested tick, its `tlist` node has been appended to the live
registry, every other list (ready queue buckets, wait lists, closed registry) is
what it was, and if no list linked the `list` node of the fresh block before the
call then none does after it. -/
theorem task_create_success (cfg : Config) (env : create_env) (k : Kernel)
    (name : String) (entry parameter priority tick clean : Nat) (k2 : Kernel) (t : Nat)
    (hp8 : priority < 256) (ht32 : tick < 2 ^ 32)
    (hprio : priority < cfg.CONFIG_MAX_PRIORITY)
    (hcall : task_create cfg env k name entry parameter priority tick clean = (k2, t))
    (hok : t ≠ 0) :
    t = env.kalloc ∧
    (k2.mem t).status = task_status.TASK_SUSPEND ∧
    (k2.mem t).list_lock = none ∧
    (k2.mem t).flag = 0 ∧
    (k2.mem t).init_priority = priority ∧
    (k2.mem t).current_priority = priority ∧
    (k2.mem t).init_tick = tick ∧
    (k2.mem t).remaining_tick = tick ∧
    k2.lists list_head.task_list = k.lists list_head.task_list ++ [node_ref.tlist t] ∧
    (∀ h, h ≠ list_head.task_list → k2.lists h = k.lists h) ∧
    ((∀ h, node_ref.list t ∉ k.lists h) → ∀ h, node_ref.list t ∉ k2.lists h) := by
  have h1 := priority_in_range cfg priority hp8 hprio
  have hp : priority % 256 = priority := Nat.mod_eq_of_lt hp8
  have htk : tick % 2 ^ 32 = tick := Nat.mod_eq_of_lt ht32
  by_cases hk : env.kalloc = 0
  · simp [task_create, h1, hk] at hcall
    exact absurd hcall.2.symm hok
  by_cases hpg : env.alloc_page = 0
  · simp [task_create, h1, hk, hpg] at hcall
    exact absurd hcall.2.symm hok
  by_cases hpid : env.pid_alloc = 0
  · simp [task_create, h1, hk, hpg, hpid] at hcall
    exact absurd hcall.2.symm hok
  by_cases hrc : env.timer_init < 0
  · simp [task_create, h1, hk, hpg, hpid, hrc, task_create_init_rc] at hcall
    exact absurd hcall.2.symm hok
  have h1b : priority_out_of_range cfg priority = false := hp ▸ h1
  simp only [task_create, h1b, hk, hpg, hpid, hrc, task_create_init_rc, alloc_task_info_snd,
    if_false, Bool.false_eq_true, hp, htk, Prod.mk.injEq] at hcall
  obtain ⟨hk2, ht⟩ := hcall
  subst ht
  subst hk2
  have hf := task_create_init_fields cfg
    ((pid_alloc (alloc_task_info (kalloc k env.kalloc) env.alloc_page env.kalloc).1
      env.pid_alloc).update env.kalloc fun ts => { ts with pid := env.pid_alloc })
    env.kalloc name entry parameter (stack_start_of cfg env.alloc_page) priority tick clean
    env.stack_init env.timer_init
  obtain ⟨f1, f2, f3, f4, f5, f6, f7, -⟩ := hf
  refine ⟨rfl, f1, f2, f3, f4, f5, f6, f7, ?_, ?_, ?_⟩
  · simp [task_create_init_lists]
  · intro h hh
    simp [task_create_init_lists, hh]
  · intro hfresh h
    by_cases hh : h = list_head.task_list
    · simp [task_create_init_lists, hh]
      exact hfresh list_head.task_list
    · simp [task_create_init_lists, hh]
      exact hfresh h

/-- C4 (witness): the first task created after boot, priority 5 of 32, tick 10. -/
theorem task_create_success_witness :
    4096 = env_ok.kalloc ∧
    ((task_create cfg32 env_ok boot "A" 100 0 5 10 0).1.mem 4096).status =
      task_status.TASK_SUSPEND ∧
    ((task_create cfg32 env_ok boot "A" 100 0 5 10 0).1.mem 4096).list_lock = none ∧
    ((task_create cfg32 env_ok boot "A" 100 0 5 10 0).1.mem 4096).flag = 0 ∧
    ((task_create cfg32 env_ok boot "A" 100 0 5 10 0).1.mem 4096).init_priority = 5 ∧
    ((task_create cfg32 env_ok boot "A" 100 0 5 10 0).1.mem 4096).current_priority = 5 ∧
    ((task_create cfg32 env_ok boot "A" 100 0 5 10 0).1.mem 4096).init_tick = 10 ∧
    ((task_create cfg32 env_ok boot "A" 100 0 5 10 0).1.mem 4096).remaining_tick = 10 ∧
    (task_create cfg32 env_ok boot "A" 100 0 5 10 0).1.lists list_head.task_list =
      boot.lists list_head.task_list ++ [node_ref.tlist 4096] ∧
    (∀ h, h ≠ list_head.task_list →
      (task_create cfg32 env_ok boot "A" 100 0 5 10 0).1.lists h = boot.lists h) ∧
    ((∀ h, node_ref.list 4096 ∉ boot.lists h) →
      ∀ h, node_ref.list 4096 ∉ (task_create cfg32 env_ok boot "A" 100 0 5 10 0).1.lists h) :=
  task_create_success cfg32 env_ok boot "A" 100 0 5 10 0
    (task_create cfg32 env_ok boot "A" 100 0 5 10 0).1 4096
    (by decide) (by decide) (by decide) (Prod.ext rfl (by decide)) (by decide)

/-- C5: in a configuration with `CONFIG_MAX_PRIORITY < 256`, a priority at or above
`CONFIG_MAX_PRIORITY` makes `task_create` return `NULL` with the state it was given
apart from one console line: no collaborator is called (no `kalloc`, `alloc_page` or
`pid_alloc`), and all lists, allocations and control blocks are untouched;
conversely a priority below `CONFIG_MAX_PRIORITY` passes the check and the call goes
on to `kalloc`. -/
theorem task_create_priority_check (cfg : Config) (env : create_env) (k : Kernel)
    (name : String) (entry parameter priority tick clean : Nat)
    (hcfg : cfg.CONFIG_MAX_PRIORITY < 256) (hp8 : priority < 256) :
    (cfg.CONFIG_MAX_PRIORITY ≤ priority →
      (task_create cfg env k name entry parameter priority tick clean) = (pr_err k "task_create" 148, 0) ∧
      (task_create cfg env k name entry parameter priority tick clean).1.trace = k.trace ∧
      (task_create cfg env k name entry parameter priority tick clean).1.lists = k.lists ∧
      (task_create cfg env k name entry parameter priority tick clean).1.kheap = k.kheap ∧
      (task_create cfg env k name entry parameter priority tick clean).1.pages = k.pages ∧
      (task_create cfg env k name entry parameter priority tick clean).1.pids = k.pids ∧
      (task_create cfg env k name entry parameter priority tick clean).1.mem = k.mem) ∧
    (priority < cfg.CONFIG_MAX_PRIORITY →
      priority_out_of_range cfg (priority % 256) = false ∧
      ∃ rest, (task_create cfg env k name entry parameter priority tick clean).1.trace = k.trace ++ Event.kalloc env.kalloc :: rest) := by
  have hp : priority % 256 = priority := Nat.mod_eq_of_lt hp8
  constructor
  · intro hge
    have h1 : priority_out_of_range cfg (priority % 256) = true := by
      simp [priority_out_of_range, hp, hcfg, hge]
    have h2 : (task_create cfg env k name entry parameter priority tick clean) = (pr_err k "task_create" 148, 0) := by
      simp [task_create, h1]
    rw [h2]
    exact ⟨rfl, rfl, rfl, rfl, rfl, rfl, rfl⟩
  · intro hlt
    have h1 := priority_in_range cfg priority hp8 hlt
    refine ⟨h1, ?_⟩
    by_cases hk : env.kalloc = 0
    · exact ⟨[], by simp [task_create, h1, hk]⟩
    by_cases hpg : env.alloc_page = 0
    · exact ⟨[Event.alloc_page 0, Event.kfree env.kalloc],
        by simp [task_create, h1, hk, hpg]⟩
    by_cases hpid : env.pid_alloc = 0
    · exact ⟨[Event.alloc_page env.alloc_page, Event.pid_alloc 0,
        Event.free_page env.alloc_page, Event.kfree env.kalloc],
        by simp [task_create, h1, hk, hpg, hpid]⟩
    by_cases hrc : env.timer_init < 0
    · exact ⟨[Event.alloc_page env.alloc_page, Event.pid_alloc env.pid_alloc,
        Event.stack_init env.kalloc, Event.timer_init env.kalloc env.timer_init,
        Event.pid_free env.pid_alloc, Event.free_page env.alloc_page,
        Event.kfree env.kalloc],
        by simp [task_create, h1, hk, hpg, hpid, hrc, task_create_init_rc,
          task_create_init_trace]⟩
    · exact ⟨[Event.alloc_page env.alloc_page, Event.pid_alloc env.pid_alloc,
        Event.stack_init env.kalloc, Event.timer_init env.kalloc env.timer_init],
        by simp [task_create, h1, hk, hpg, hpid, hrc, task_create_init_rc,
          task_create_init_trace]⟩

/-- C5 (witness): priority 40 with 32 priority levels is turned away before any
allocation. -/
theorem task_create_priority_check_witness :
    cfg32.CONFIG_MAX_PRIORITY < 256 ∧ 40 < 256 ∧ cfg32.CONFIG_MAX_PRIORITY ≤ 40 ∧
    task_create cfg32 env_ok boot "A" 100 0 40 10 0 = (pr_err boot "task_create" 148, 0) ∧
    (task_create cfg32 env_ok boot "A" 100 0 40 10 0).1.trace = boot.trace :=
  ⟨by decide, by decide, by decide,
    ((task_create_priority_check cfg32 env_ok boot "A" 100 0 40 10 0
      (by decide) (by decide)).1 (by decide)).1,
    ((task_create_priority_check cfg32 env_ok boot "A" 100 0 40 10 0
      (by decide) (by decide)).1 (by decide)).2.1⟩

/-! ## Deletion: `task_del` -/

/-- Deleting a task that is not the current one and whose `list` node is on no wait
list and not yet in the closed registry: no reschedule is requested, the task ends
`TASK_CLOSE`, out of the live registry and of the ready queue, once in the closed
registry and on no wait list. -/
theorem task_del_off_wait_lists (k : Kernel) (task : Nat) (h0 : task ≠ 0)
    (hcur : task ≠ k.current)
    (hrq : ¬ ((k.mem task).status = task_status.TASK_READY ∨
        (k.mem task).status = task_status.TASK_RUNING) →
      ∀ p, node_ref.list task ∉ k.lists (list_head.ready_task_list p))
    (hcl : node_ref.list task ∉ k.lists list_head.close_task_list)
    (hw : ∀ i, node_ref.list task ∉ k.lists (list_head.wait_list i)) :
    Event.switch_task ∉ (task_del k task).trace.drop k.trace.length ∧
    ((task_del k task).mem task).status = task_status.TASK_CLOSE ∧
    node_ref.tlist task ∉ (task_del k task).lists list_head.task_list ∧
    (∀ p, node_ref.list task ∉ (task_del k task).lists (list_head.ready_task_list p)) ∧
    ((task_del k task).lists list_head.close_task_list).count (node_ref.list task) = 1 ∧
    (∀ i, node_ref.list task ∉ (task_del k task).lists (list_head.wait_list i)) := by
  by_cases hs : (k.mem task).status = task_status.TASK_READY ∨
      (k.mem task).status = task_status.TASK_RUNING
  · simp [task_del, h0, hcur, hs, List.count_eq_zero_of_not_mem, hcl, List.mem_filter]
    intro i
    exact hw i
  · simp [task_del, h0, hcur, hs, List.count_eq_zero_of_not_mem, hcl, List.mem_filter]
    exact ⟨hrq hs, hw⟩

/-- C6 (the code at the failing input): task A at 4096 is in the live registry, is
not the current task, is `TASK_WAIT` and its `list` node is linked into wait list 0.
After `task_del` no reschedule has been requested, A is `TASK_CLOSE`, out of the live
registry and linked once into the closed registry, but wait list 0 still reaches its
`list` node: `task_del` never unlinked it from there. -/
theorem task_del_leaves_wait_list_link :
    (4096 ≠ 0 ∧ node_ref.tlist 4096 ∈ k_waiting.lists list_head.task_list ∧
      4096 ≠ k_waiting.current ∧
      (k_waiting.mem 4096).status = task_status.TASK_WAIT ∧
      (k_waiting.mem 4096).list_lock = some (list_lock_ref.wait_list_lock 0) ∧
      k_waiting.lists (list_head.wait_list 0) = [node_ref.list 4096]) ∧
    (Event.switch_task ∉ (task_del k_waiting 4096).trace.drop k_waiting.trace.length ∧
      ((task_del k_waiting 4096).mem 4096).status = task_status.TASK_CLOSE ∧
      (task_del k_waiting 4096).lists list_head.task_list = [] ∧
      (task_del k_waiting 4096).lists list_head.close_task_list = [node_ref.list 4096] ∧
      (task_del k_waiting 4096).lists (list_head.wait_list 0) = [node_ref.list 4096]) := by
  decide

/-! ## Priority change: `task_set_prio` -/

/-- Setting the priority a task already has changes nothing. -/
theorem task_set_prio_same (k : Kernel) (task prio : Nat) (h0 : task ≠ 0)
    (hp : (k.mem task).current_priority = prio % 256) :
    task_set_prio k task prio = (k, 0) := by
  simp [task_set_prio, h0, hp]

/-- Setting a different priority, whatever the status of the task: the call returns
0, the task ends `TASK_READY` with the new current priority and linked into the ready
queue bucket of that priority; pid, initial priority, ticks and flag are kept. -/
theorem task_set_prio_changed (k : Kernel) (task prio : Nat) (h0 : task ≠ 0)
    (hp : (k.mem task).current_priority ≠ prio % 256) :
    (task_set_prio k task prio).2 = 0 ∧
    ((task_set_prio k task prio).1.mem task).status = task_status.TASK_READY ∧
    ((task_set_prio k task prio).1.mem task).current_priority = prio % 256 ∧
    node_ref.list task ∈
      (task_set_prio k task prio).1.lists (list_head.ready_task_list (prio % 256)) ∧
    ((task_set_prio k task prio).1.mem task).init_priority = (k.mem task).init_priority ∧
    ((task_set_prio k task prio).1.mem task).pid = (k.mem task).pid ∧
    ((task_set_prio k task prio).1.mem task).init_tick = (k.mem task).init_tick ∧
    ((task_set_prio k task prio).1.mem task).remaining_tick = (k.mem task).remaining_tick ∧
    ((task_set_prio k task prio).1.mem task).flag = (k.mem task).flag := by
  simp [task_set_prio, h0, hp]

/-- C7 (the code at the failing input): task A at 4096, just created with priority
5, is `TASK_SUSPEND` and in no ready queue bucket. `task_set_prio(A, 2)` returns 0
and leaves A `TASK_READY` and linked into the ready queue bucket of priority 2. -/
theorem task_set_prio_readies_suspended_task :
    ((k_created.mem 4096).status = task_status.TASK_SUSPEND ∧
      ∀ p, k_created.lists (list_head.ready_task_list p) = []) ∧
    ((task_set_prio k_created 4096 2).2 = 0 ∧
      ((task_set_prio k_created 4096 2).1.mem 4096).status = task_status.TASK_READY ∧
      (task_set_prio k_created 4096 2).1.lists (list_head.ready_task_list 2) =
        [node_ref.list 4096]) :=
  ⟨⟨by decide, fun _ => rfl⟩, by decide⟩

/-! ## Hang and resume -/

theorem task_hang_ok (k : Kernel) (task : Nat) (h0 : task ≠ 0)
    (hst : (k.mem task).status = task_status.TASK_READY ∨
      (k.mem task).status = task_status.TASK_RUNING) :
    task_hang k task =
      (set_status (del_task_to_ready_list (timer_stop k task) task) task
          task_status.TASK_WAIT, Ret.ret 0) := by
  rcases hst with h | h <;> simp [task_hang, h0, h]

theorem task_resume_ok (k : Kernel) (task : Nat) (h0 : task ≠ 0)
    (hst : (k.mem task).status = task_status.TASK_WAIT) :
    task_resume k task = (add_task_to_ready_list (timer_stop k task) task, Ret.ret 0) := by
  simp [task_resume, h0, hst]

/-- C8 (counterexample): task A went to sleep and its timer fired while B runs, so A
is `TASK_READY` with the wake-reason flag `-ETIMEDOUT` and has not yet run. B then
calls `task_hang(A)` and `task_resume(A)`; both return 0 and the flag of A is still
`-ETIMEDOUT`, not 0. -/
theorem task_hang_resume_keeps_timed_out_flag :
    4096 ≠ 0 ∧ (k_timed_out.mem 4096).status = task_status.TASK_READY ∧
    (k_timed_out.mem 4096).flag = -ETIMEDOUT ∧
    (task_hang k_timed_out 4096).2 = Ret.ret 0 ∧
    (task_resume (task_hang k_timed_out 4096).1 4096).2 = Ret.ret 0 ∧
    ((task_resume (task_hang k_timed_out 4096).1 4096).1.mem 4096).flag = -ETIMEDOUT ∧
    ((task_resume (task_hang k_timed_out 4096).1 4096).1.mem 4096).flag ≠ 0 := by
  decide

/-- C8 (as amended): for a non-null task that is `TASK_READY` or `TASK_RUNING`,
`task_hang` followed by `task_resume` both return 0 and leave the task `TASK_READY`
and linked into the ready queue bucket of its current priority, with its pid,
initial priority, current priority and wake-reason flag equal to their values before
the two calls (so the flag is 0 exactly when it was 0 before). -/
theorem task_hang_then_resume (k : Kernel) (task : Nat) (h0 : task ≠ 0)
    (hst : (k.mem task).status = task_status.TASK_READY ∨
      (k.mem task).status = task_status.TASK_RUNING) :
    (task_hang k task).2 = Ret.ret 0 ∧
    (task_resume (task_hang k task).1 task).2 = Ret.ret 0 ∧
    ((task_resume (task_hang k task).1 task).1.mem task).status = task_status.TASK_READY ∧
    node_ref.list task ∈
      (task_resume (task_hang k task).1 task).1.lists (list_head.ready_task_list ((task_resume (task_hang k task).1 task).1.mem task).current_priority) ∧
    in_ready_queue (task_resume (task_hang k task).1 task).1 task ∧
    ((task_resume (task_hang k task).1 task).1.mem task).pid = (k.mem task).pid ∧
    ((task_resume (task_hang k task).1 task).1.mem task).init_priority = (k.mem task).init_priority ∧
    ((task_resume (task_hang k task).1 task).1.mem task).current_priority = (k.mem task).current_priority ∧
    ((task_resume (task_hang k task).1 task).1.mem task).flag = (k.mem task).flag := by
  have h1 := task_hang_ok k task h0 hst
  have h2 : ((set_status (del_task_to_ready_list (timer_stop k task) task) task
          task_status.TASK_WAIT).mem task).status =
      task_status.TASK_WAIT := by simp
  have h3 := task_resume_ok _ task h0 h2
  rw [h1]
  simp only []
  rw [h3]
  refine ⟨by simp, by simp, by simp, by simp, ⟨(k.mem task).current_priority, by simp⟩,
    by simp, by simp, by simp, by simp⟩

/-- C8 (witness): task A, ready after creation, hung and resumed. -/
theorem task_hang_then_resume_witness :
    (task_hang k_ready 4096).2 = Ret.ret 0 ∧
    (task_resume (task_hang k_ready 4096).1 4096).2 = Ret.ret 0 ∧
    ((task_resume (task_hang k_ready 4096).1 4096).1.mem 4096).status = task_status.TASK_READY ∧
    node_ref.list 4096 ∈
      (task_resume (task_hang k_ready 4096).1 4096).1.lists (list_head.ready_task_list ((task_resume (task_hang k_ready 4096).1 4096).1.mem 4096).current_priority) ∧
    in_ready_queue (task_resume (task_hang k_ready 4096).1 4096).1 4096 ∧
    ((task_resume (task_hang k_ready 4096).1 4096).1.mem 4096).pid = (k_ready.mem 4096).pid ∧
    ((task_resume (task_hang k_ready 4096).1 4096).1.mem 4096).init_priority = (k_ready.mem 4096).init_priority ∧
    ((task_resume (task_hang k_ready 4096).1 4096).1.mem 4096).current_priority = (k_ready.mem 4096).current_priority ∧
    ((task_resume (task_hang k_ready 4096).1 4096).1.mem 4096).flag = (k_ready.mem 4096).flag :=
  task_hang_then_resume k_ready 4096 (by decide) (by decide)

/-! ## `task_ready` and `task_sleep`: rejected calls -/

/-- C9: for a non-null task that is `TASK_READY` or `TASK_RUNING`, `task_ready`
returns `-EINVAL`, a negative code distinct from 0, and the state it leaves is the
state it was given plus one console line: control blocks, lists (ready queue and
both registries), the current task and the allocations are untouched and no
collaborator is called (no `add_task_to_ready_list`, no `switch_task`). -/
theorem task_ready_rejects_ready_task (k : Kernel) (task : Nat) (h0 : task ≠ 0)
    (hst : (k.mem task).status = task_status.TASK_READY ∨
      (k.mem task).status = task_status.TASK_RUNING) :
    task_ready k task = (pr_warning k "task_ready" 204, -EINVAL) ∧
    (task_ready k task).2 < 0 ∧ (task_ready k task).2 ≠ 0 ∧
    (task_ready k task).1.mem = k.mem ∧
    (task_ready k task).1.lists = k.lists ∧
    (task_ready k task).1.trace = k.trace ∧
    (task_ready k task).1.current = k.current ∧
    (task_ready k task).1.kheap = k.kheap ∧
    (task_ready k task).1.pages = k.pages ∧
    (task_ready k task).1.pids = k.pids := by
  have h : task_ready k task = (pr_warning k "task_ready" 204, -EINVAL) := by
    simp [task_ready, h0, hst]
  rw [h]
  have hneg : -EINVAL < 0 := by decide
  have hne : -EINVAL ≠ 0 := by decide
  exact ⟨rfl, hneg, hne, rfl, rfl, rfl, rfl, rfl, rfl, rfl⟩

/-- C9 (witness): task A, already ready, is passed to `task_ready` again. -/
theorem task_ready_rejects_ready_task_witness :
    task_ready k_ready 4096 = (pr_warning k_ready "task_ready" 204, -EINVAL) ∧
    (task_ready k_ready 4096).2 < 0 ∧ (task_ready k_ready 4096).2 ≠ 0 ∧
    (task_ready k_ready 4096).1.mem = k_ready.mem ∧
    (task_ready k_ready 4096).1.lists = k_ready.lists ∧
    (task_ready k_ready 4096).1.trace = k_ready.trace ∧
    (task_ready k_ready 4096).1.current = k_ready.current ∧
    (task_ready k_ready 4096).1.kheap = k_ready.kheap ∧
    (task_ready k_ready 4096).1.pages = k_ready.pages ∧
    (task_ready k_ready 4096).1.pids = k_ready.pids :=
  task_ready_rejects_ready_task k_ready 4096 (by decide) (by decide)

/-- C10: in every state and whatever the rest of the system would do, `task_sleep(0)`
returns `-EINVAL` and the state it leaves is the state it was given plus one console
line: control blocks (status, flag and timer of the current task included), lists
and the current task are untouched and no collaborator is called (no `timer_stop`,
no `timer_start`, no `del_task_to_ready_list`, no `switch_task`). -/
theorem task_sleep_zero (k : Kernel) (sched : Kernel → Kernel) :
    task_sleep k 0 sched = (pr_err k "task_sleep" 305, Ret.ret (-EINVAL)) ∧
    (task_sleep k 0 sched).1.mem = k.mem ∧
    (task_sleep k 0 sched).1.lists = k.lists ∧
    (task_sleep k 0 sched).1.trace = k.trace ∧
    (task_sleep k 0 sched).1.current = k.current :=
  ⟨rfl, rfl, rfl, rfl, rfl⟩

/-! ## The timeout callback and `task_sleep` -/

/-- The state `timeout` leaves for a waiting task, written as the sequence of its
steps: flag write, unlink through `list_lock` when it is set, then clearing of
`list_lock`, ready-queue admission, reschedule request. -/
theorem timeout_ok (k : Kernel) (task : Nat) (h0 : task ≠ 0)
    (hst : (k.mem task).status = task_status.TASK_WAIT) :
    timeout k task =
      (switch_task (add_task_to_ready_list
        (match (k.mem task).list_lock with
         | some _ =>
           set_list_lock (list_del (k.update task fun ts => { ts with flag := -ETIMEDOUT })
            (node_ref.list task)) task none
         | none => k.update task fun ts => { ts with flag := -ETIMEDOUT }) task),
       Ret.ret ()) := by
  cases hl : (k.mem task).list_lock <;> simp [timeout, h0, hst, hl]

theorem timeout_bug (k : Kernel) (task : Nat)
    (h : task = 0 ∨ (k.mem task).status ≠ task_status.TASK_WAIT) :
    timeout k task = (k, Ret.bug) := by
  by_cases h0 : task = 0
  · simp [timeout, h0]
  · rcases h with h | h
    · exact absurd h h0
    · simp [timeout, h0, h]

theorem task_sleep_block_ok (k : Kernel) (tick : Nat) (hcur : k.current ≠ 0)
    (hst : (k.mem k.current).status = task_status.TASK_READY ∨
      (k.mem k.current).status = task_status.TASK_RUNING)
    (htick : tick % 2 ^ 32 ≠ 0) :
    task_sleep_block k tick =
      (switch_task (timer_start
        (set_status (del_task_to_ready_list (timer_stop k k.current) k.current) k.current
          task_status.TASK_WAIT)
        k.current (tick % 2 ^ 32)), Ret.ret 0, true) := by
  have h2 : ¬ tick % 4294967296 = 0 := htick
  simp [task_sleep_block, h2, task_hang_ok k k.current hcur hst]

/-- A sleep that is ended by the timeout callback: the call returns 0, the caller is
still the current task, is `TASK_READY` and its flag reads 0. -/
theorem task_sleep_timeout_state (k : Kernel) (n : Nat) (hcur : k.current ≠ 0)
    (hst : (k.mem k.current).status = task_status.TASK_READY ∨
      (k.mem k.current).status = task_status.TASK_RUNING)
    (hn : n % 2 ^ 32 ≠ 0) :
    (task_sleep k n (fun s => (timeout s k.current).1)).2 = Ret.ret 0 ∧
    (task_sleep k n (fun s => (timeout s k.current).1)).1.current = k.current ∧
    ((task_sleep k n (fun s => (timeout s k.current).1)).1.mem k.current).status =
      task_status.TASK_READY ∧
    ((task_sleep k n (fun s => (timeout s k.current).1)).1.mem k.current).flag = 0 := by
  have hb := task_sleep_block_ok k n hcur hst hn
  have hw : ((switch_task (timer_start
        (set_status (del_task_to_ready_list (timer_stop k k.current) k.current) k.current
          task_status.TASK_WAIT)
        k.current (n % 2 ^ 32))).mem k.current).status = task_status.TASK_WAIT := by
    simp
  have ht := timeout_ok _ k.current hcur hw
  simp only [task_sleep, hb, ht, task_sleep_wake]
  cases hl : (k.mem k.current).list_lock <;> simp [hl]

/-- A sleep that is ended by `task_resume`: the resume succeeds, the call returns 0
and the flag of the caller is what it was before the call, or 0 if it was
`-ETIMEDOUT`. -/
theorem task_sleep_resume_state (k : Kernel) (m : Nat) (hcur : k.current ≠ 0)
    (hst : (k.mem k.current).status = task_status.TASK_READY ∨
      (k.mem k.current).status = task_status.TASK_RUNING)
    (hm : m % 2 ^ 32 ≠ 0) :
    (task_resume (task_sleep_block k m).1 k.current).2 = Ret.ret 0 ∧
    (task_sleep k m (fun s => (task_resume s k.current).1)).2 = Ret.ret 0 ∧
    ((task_sleep k m (fun s => (task_resume s k.current).1)).1.mem k.current).flag =
      if (k.mem k.current).flag = -ETIMEDOUT then 0 else (k.mem k.current).flag := by
  have hb := task_sleep_block_ok k m hcur hst hm
  have hw : ((switch_task (timer_start
        (set_status (del_task_to_ready_list (timer_stop k k.current) k.current) k.current
          task_status.TASK_WAIT)
        k.current (m % 2 ^ 32))).mem k.current).status = task_status.TASK_WAIT := by
    simp
  have hr := task_resume_ok _ k.current hcur hw
  simp only [task_sleep, hb, hr, task_sleep_wake]
  by_cases hf : (k.mem k.current).flag = -ETIMEDOUT <;> simp [hf]

/-- C11: for tick counts `n, m > 0` and a current task that is `TASK_READY` or
`TASK_RUNING`: when the task sleeping in `task_sleep(n)` is woken by its timeout
callback, the callback runs to its end and sets the flag to `-ETIMEDOUT` while the
task waits, `task_sleep` returns 0 and on return the flag reads 0; a second
`task_sleep(m)` of the same task that is ended by `task_resume` (which succeeds)
also returns 0 with the flag 0. -/
theorem task_sleep_timeout_is_one_shot (k : Kernel) (n m : Nat) (hcur : k.current ≠ 0)
    (hst : (k.mem k.current).status = task_status.TASK_READY ∨
      (k.mem k.current).status = task_status.TASK_RUNING)
    (hn : 0 < n) (hn32 : n < 2 ^ 32) (hm : 0 < m) (hm32 : m < 2 ^ 32) :
    (timeout (task_sleep_block k n).1 k.current).2 = Ret.ret () ∧
    ((timeout (task_sleep_block k n).1 k.current).1.mem k.current).flag = -ETIMEDOUT ∧
    (task_sleep k n (fun s => (timeout s k.current).1)).2 = Ret.ret 0 ∧
    ((task_sleep k n (fun s => (timeout s k.current).1)).1.mem k.current).flag = 0 ∧
    (task_resume
      (task_sleep_block (task_sleep k n (fun s => (timeout s k.current).1)).1 m).1
      k.current).2 = Ret.ret 0 ∧
    (task_sleep (task_sleep k n (fun s => (timeout s k.current).1)).1 m
      (fun s => (task_resume s k.current).1)).2 = Ret.ret 0 ∧
    ((task_sleep (task_sleep k n (fun s => (timeout s k.current).1)).1 m
      (fun s => (task_resume s k.current).1)).1.mem k.current).flag = 0 := by
  have hn' : n % 2 ^ 32 ≠ 0 := by
    rw [Nat.mod_eq_of_lt hn32]
    exact Nat.pos_iff_ne_zero.mp hn
  have hm' : m % 2 ^ 32 ≠ 0 := by
    rw [Nat.mod_eq_of_lt hm32]
    exact Nat.pos_iff_ne_zero.mp hm
  obtain ⟨a1, a2, a3, a4⟩ := task_sleep_timeout_state k n hcur hst hn'
  have hb := task_sleep_block_ok k n hcur hst hn'
  have hw : ((switch_task (timer_start
        (set_status (del_task_to_ready_list (timer_stop k k.current) k.current) k.current
          task_status.TASK_WAIT)
        k.current (n % 2 ^ 32))).mem k.current).status = task_status.TASK_WAIT := by
    simp
  have ht := timeout_ok _ k.current hcur hw
  have hcur2 : (task_sleep k n (fun s => (timeout s k.current).1)).1.current ≠ 0 := by
    rw [a2]
    exact hcur
  have hst2 :
      ((task_sleep k n (fun s => (timeout s k.current).1)).1.mem
        (task_sleep k n (fun s => (timeout s k.current).1)).1.current).status =
        task_status.TASK_READY ∨
      ((task_sleep k n (fun s => (timeout s k.current).1)).1.mem
        (task_sleep k n (fun s => (timeout s k.current).1)).1.current).status =
        task_status.TASK_RUNING := by
    rw [a2]
    exact Or.inl a3
  have hs := task_sleep_resume_state _ m hcur2 hst2 hm'
  rw [a2] at hs
  obtain ⟨b1, b2, b3⟩ := hs
  refine ⟨?_, ?_, a1, a4, b1, b2, ?_⟩
  · rw [hb, ht]
  · rw [hb, ht]
    cases hl : (k.mem k.current).list_lock <;> simp [hl]
  · rw [b3, a4]
    simp [ETIMEDOUT]

/-- C11 (witness): task A, running, sleeps 10 ticks and times out, then sleeps 7
ticks and is resumed. -/
theorem task_sleep_timeout_is_one_shot_witness :
    (timeout (task_sleep_block k_two_running 10).1 k_two_running.current).2 = Ret.ret () ∧
    ((timeout (task_sleep_block k_two_running 10).1 k_two_running.current).1.mem
      k_two_running.current).flag = -ETIMEDOUT ∧
    (task_sleep k_two_running 10 (fun s => (timeout s k_two_running.current).1)).2 =
      Ret.ret 0 ∧
    ((task_sleep k_two_running 10 (fun s => (timeout s k_two_running.current).1)).1.mem
      k_two_running.current).flag = 0 ∧
    (task_resume
      (task_sleep_block
        (task_sleep k_two_running 10 (fun s => (timeout s k_two_running.current).1)).1 7).1
      k_two_running.current).2 = Ret.ret 0 ∧
    (task_sleep (task_sleep k_two_running 10 (fun s => (timeout s k_two_running.current).1)).1
      7 (fun s => (task_resume s k_two_running.current).1)).2 = Ret.ret 0 ∧
    ((task_sleep
      (task_sleep k_two_running 10 (fun s => (timeout s k_two_running.current).1)).1
      7 (fun s => (task_resume s k_two_running.current).1)).1.mem
      k_two_running.current).flag = 0 :=
  task_sleep_timeout_is_one_shot k_two_running 10 7 (by decide) (by decide) (by decide)
    (by decide) (by decide) (by decide)

/-- C12: for a non-null task that is `TASK_WAIT`, `timeout` runs to its end, sets the
flag to `-ETIMEDOUT` and leaves `list_lock` null; when `list_lock` was non-null the
`list` node is unlinked (no wait list reaches it any more), when it was null no wait
list is touched; the only collaborator calls are one `add_task_to_ready_list` of the
task followed by one `switch_task`, and the node is appended once to the ready queue
bucket of the current priority. For a null task, or a task in any other status,
`timeout` stops in `BUG_ON` with the state it was given. -/
theorem timeout_effect (k : Kernel) (task : Nat) :
    (task ≠ 0 → (k.mem task).status = task_status.TASK_WAIT →
      (timeout k task).2 = Ret.ret () ∧
      ((timeout k task).1.mem task).flag = -ETIMEDOUT ∧
      ((timeout k task).1.mem task).list_lock = none ∧
      ((k.mem task).list_lock ≠ none →
        (∀ i, node_ref.list task ∉ (timeout k task).1.lists (list_head.wait_list i)) ∧
        ∀ h, (timeout k task).1.lists h =
          (k.lists h).filter (fun m => decide (m ≠ node_ref.list task)) ++
            if h = list_head.ready_task_list (k.mem task).current_priority then
              [node_ref.list task] else []) ∧
      ((k.mem task).list_lock = none →
        (∀ i, (timeout k task).1.lists (list_head.wait_list i) =
          k.lists (list_head.wait_list i)) ∧
        ∀ h, (timeout k task).1.lists h =
          k.lists h ++
            if h = list_head.ready_task_list (k.mem task).current_priority then
              [node_ref.list task] else []) ∧
      (timeout k task).1.trace =
        k.trace ++ [Event.add_task_to_ready_list task, Event.switch_task]) ∧
    (task = 0 ∨ (k.mem task).status ≠ task_status.TASK_WAIT →
      timeout k task = (k, Ret.bug)) := by
  refine ⟨?_, timeout_bug k task⟩
  intro h0 hst
  rw [timeout_ok k task h0 hst]
  cases hl : (k.mem task).list_lock with
  | none =>
    refine ⟨rfl, by simp, by simp [hl], by simp, ?_, by simp⟩
    intro _
    refine ⟨fun i => by simp, fun h => ?_⟩
    by_cases hh : h = list_head.ready_task_list (k.mem task).current_priority <;> simp [hh]
  | some l =>
    refine ⟨rfl, by simp, by simp, ?_, by simp, by simp⟩
    intro _
    refine ⟨fun i => by simp [List.mem_filter], fun h => ?_⟩
    by_cases hh : h = list_head.ready_task_list (k.mem task).current_priority <;> simp [hh]

/-- C12 (witness): the timer of task A fires while A waits on wait list 0. -/
theorem timeout_effect_witness :
    (k_waiting.mem 4096).list_lock ≠ none ∧
    k_waiting.lists (list_head.wait_list 0) = [node_ref.list 4096] ∧
    (timeout k_waiting 4096).2 = Ret.ret () ∧
    ((timeout k_waiting 4096).1.mem 4096).flag = -ETIMEDOUT ∧
    ((timeout k_waiting 4096).1.mem 4096).list_lock = none ∧
    (∀ i, node_ref.list 4096 ∉ (timeout k_waiting 4096).1.lists (list_head.wait_list i)) ∧
    (timeout k_waiting 4096).1.trace =
      k_waiting.trace ++ [Event.add_task_to_ready_list 4096, Event.switch_task] :=
  ⟨by decide, by decide,
    ((timeout_effect k_waiting 4096).1 (by decide) (by decide)).1,
    ((timeout_effect k_waiting 4096).1 (by decide) (by decide)).2.1,
    ((timeout_effect k_waiting 4096).1 (by decide) (by decide)).2.2.1,
    (((timeout_effect k_waiting 4096).1 (by decide) (by decide)).2.2.2.1 (by decide)).1,
    ((timeout_effect k_waiting 4096).1 (by decide) (by decide)).2.2.2.2.2⟩

/-! ## Resume against timeout, rejected `task_hang`, order of `timer_stop` -/

/-- A node that `list_del` filtered out of a chain does not occur in it. -/
theorem count_filter_ne_self (l : List node_ref) (n : node_ref) :
    (l.filter (fun m => !decide (m = n))).count n = 0 :=
  List.count_eq_zero_of_not_mem (by simp [List.mem_filter])

/-- C16: for a non-null task that is `TASK_WAIT`, taking `task_resume` and `timeout`
as whole steps. Resume first: it returns 0 and leaves the task `TASK_READY` after one
`add_task_to_ready_list`; the timeout that follows stops in `BUG_ON` with the state
untouched. Timeout first: it runs to its end and leaves the task `TASK_READY` after
one `add_task_to_ready_list`; the resume that follows logs and stops in `BUG_ON`
without calling any collaborator. In both orders, a task that was in no ready queue
bucket ends linked exactly once into the bucket of its current priority and into no
other bucket. -/
theorem resume_timeout_exactly_one (k : Kernel) (task : Nat) (h0 : task ≠ 0)
    (hst : (k.mem task).status = task_status.TASK_WAIT) :
    ((task_resume k task).2 = Ret.ret 0 ∧
      ((task_resume k task).1.mem task).status = task_status.TASK_READY ∧
      (task_resume k task).1.trace =
        k.trace ++ [Event.timer_stop task, Event.add_task_to_ready_list task] ∧
      timeout (task_resume k task).1 task = ((task_resume k task).1, Ret.bug) ∧
      ((∀ p, node_ref.list task ∉ k.lists (list_head.ready_task_list p)) →
        ∀ p, ((timeout (task_resume k task).1 task).1.lists
            (list_head.ready_task_list p)).count (node_ref.list task) =
          if p = (k.mem task).current_priority then 1 else 0)) ∧
    ((timeout k task).2 = Ret.ret () ∧
      ((timeout k task).1.mem task).status = task_status.TASK_READY ∧
      (timeout k task).1.trace =
        k.trace ++ [Event.add_task_to_ready_list task, Event.switch_task] ∧
      task_resume (timeout k task).1 task =
        (pr_err (timeout k task).1 "task_resume" 288, Ret.bug) ∧
      ((∀ p, node_ref.list task ∉ k.lists (list_head.ready_task_list p)) →
        ∀ p, ((task_resume (timeout k task).1 task).1.lists
            (list_head.ready_task_list p)).count (node_ref.list task) =
          if p = (k.mem task).current_priority then 1 else 0)) := by
  have hr := task_resume_ok k task h0 hst
  have ht := timeout_ok k task h0 hst
  have hr1 : ((add_task_to_ready_list (timer_stop k task) task).mem task).status ≠
      task_status.TASK_WAIT := by simp
  have hb1 := timeout_bug (add_task_to_ready_list (timer_stop k task) task) task (Or.inr hr1)
  constructor
  · rw [hr]
    refine ⟨rfl, by simp, by simp, hb1, ?_⟩
    intro hnot p
    rw [hb1]
    by_cases hp : p = (k.mem task).current_priority
    · subst hp
      simp [List.count_eq_zero_of_not_mem (hnot _)]
    · simp [hp, List.count_eq_zero_of_not_mem (hnot p)]
  · rw [ht]
    cases hl : (k.mem task).list_lock with
    | none =>
      have hs : ((switch_task (add_task_to_ready_list
          (k.update task fun ts => { ts with flag := -ETIMEDOUT }) task)).mem task).status ≠
          task_status.TASK_WAIT := by simp
      refine ⟨rfl, by simp, by simp, by simp [task_resume, h0], ?_⟩
      intro hnot p
      simp only [task_resume, h0, hs, if_false, if_true, ne_eq, not_false_eq_true]
      by_cases hp : p = (k.mem task).current_priority
      · subst hp
        simp [List.count_eq_zero_of_not_mem (hnot _)]
      · simp [hp, List.count_eq_zero_of_not_mem (hnot p)]
    | some l =>
      have hs : ((switch_task (add_task_to_ready_list
          (set_list_lock (list_del (k.update task fun ts => { ts with flag := -ETIMEDOUT })
            (node_ref.list task)) task none)
          task)).mem task).status ≠ task_status.TASK_WAIT := by simp
      refine ⟨rfl, by simp, by simp, by simp [task_resume, h0], ?_⟩
      intro hnot p
      simp only [task_resume, h0, hs, if_false, if_true, ne_eq, not_false_eq_true]
      by_cases hp : p = (k.mem task).current_priority
      · subst hp
        simp [count_filter_ne_self]
      · simp [hp, count_filter_ne_self]

/-- After `task_hang` no ready queue bucket reaches task A. -/
theorem k_hung_off_ready_queue (p : Nat) :
    node_ref.list 4096 ∉ k_hung.lists (list_head.ready_task_list p) := by
  rw [k_hung, task_hang_ok k_ready 4096 (by decide) (by decide)]
  simp [List.mem_filter]

/-- C16 (witness): task A, hung, is resumed and timed out in both orders. -/
theorem resume_timeout_exactly_one_witness :
    timeout (task_resume k_hung 4096).1 4096 = ((task_resume k_hung 4096).1, Ret.bug) ∧
    task_resume (timeout k_hung 4096).1 4096 =
      (pr_err (timeout k_hung 4096).1 "task_resume" 288, Ret.bug) ∧
    (∀ p, ((timeout (task_resume k_hung 4096).1 4096).1.lists
        (list_head.ready_task_list p)).count (node_ref.list 4096) =
      if p = (k_hung.mem 4096).current_priority then 1 else 0) ∧
    (∀ p, ((task_resume (timeout k_hung 4096).1 4096).1.lists
        (list_head.ready_task_list p)).count (node_ref.list 4096) =
      if p = (k_hung.mem 4096).current_priority then 1 else 0) :=
  ⟨(resume_timeout_exactly_one k_hung 4096 (by decide) (by decide)).1.2.2.2.1,
    (resume_timeout_exactly_one k_hung 4096 (by decide) (by decide)).2.2.2.2.1,
    (resume_timeout_exactly_one k_hung 4096 (by decide) (by decide)).1.2.2.2.2
      k_hung_off_ready_queue,
    (resume_timeout_exactly_one k_hung 4096 (by decide) (by decide)).2.2.2.2.2
      k_hung_off_ready_queue⟩

/-- C17: for a non-null task that is neither `TASK_READY` nor `TASK_RUNING`,
`task_hang` leaves the state it was given plus one console line (control blocks, the
timer among them, lists and trace untouched: no `timer_stop`, no
`del_task_to_ready_list`); it returns `-EINVAL`, a negative code, when the task is
not the current task and stops in `BUG_ON` when it is. For a null task it returns
`-EINVAL` with the state it was given plus one console line. -/
theorem task_hang_rejected (k : Kernel) (task : Nat) (h0 : task ≠ 0)
    (h1 : (k.mem task).status ≠ task_status.TASK_READY)
    (h2 : (k.mem task).status ≠ task_status.TASK_RUNING) :
    (task_hang k task).1 = pr_err k "task_hang" 265 ∧
    (task_hang k task).1.mem = k.mem ∧
    (task_hang k task).1.lists = k.lists ∧
    (task_hang k task).1.trace = k.trace ∧
    (task ≠ k.current → (task_hang k task).2 = Ret.ret (-EINVAL)) ∧
    (task = k.current → (task_hang k task).2 = Ret.bug) ∧
    -EINVAL < 0 ∧
    task_hang k 0 = (pr_err k "task_hang" 261, Ret.ret (-EINVAL)) ∧
    (task_hang k 0).1.mem = k.mem ∧
    (task_hang k 0).1.lists = k.lists ∧
    (task_hang k 0).1.trace = k.trace := by
  have hneg : -EINVAL < 0 := by decide
  by_cases hc : task = k.current
  · have h : task_hang k task = (pr_err k "task_hang" 265, Ret.bug) := by
      simp only [task_hang, h0, h1, h2, if_false, ne_eq, not_false_eq_true, and_self,
        if_true, pr_err_current]
      rw [if_pos hc]
    rw [h]
    exact ⟨rfl, rfl, rfl, rfl, fun hn => absurd hc hn, fun _ => rfl, hneg, rfl, rfl, rfl,
      rfl⟩
  · have h : task_hang k task = (pr_err k "task_hang" 265, Ret.ret (-EINVAL)) := by
      simp only [task_hang, h0, h1, h2, if_false, ne_eq, not_false_eq_true, and_self,
        if_true, pr_err_current]
      rw [if_neg hc]
    rw [h]
    exact ⟨rfl, rfl, rfl, rfl, fun _ => rfl, fun he => absurd he hc, hneg, rfl, rfl, rfl,
      rfl⟩

/-- C17 (witness): task A, just created and `TASK_SUSPEND`, is not the current task;
`task_hang(A)` is turned away with `-EINVAL`. -/
theorem task_hang_rejected_witness :
    (task_hang k_created 4096).1 = pr_err k_created "task_hang" 265 ∧
    (task_hang k_created 4096).1.mem = k_created.mem ∧
    (task_hang k_created 4096).1.lists = k_created.lists ∧
    (task_hang k_created 4096).1.trace = k_created.trace ∧
    (task_hang k_created 4096).2 = Ret.ret (-EINVAL) :=
  ⟨(task_hang_rejected k_created 4096 (by decide) (by decide) (by decide)).1,
    (task_hang_rejected k_created 4096 (by decide) (by decide) (by decide)).2.1,
    (task_hang_rejected k_created 4096 (by decide) (by decide) (by decide)).2.2.1,
    (task_hang_rejected k_created 4096 (by decide) (by decide) (by decide)).2.2.2.1,
    (task_hang_rejected k_created 4096 (by decide) (by decide) (by decide)).2.2.2.2.1
      (by decide)⟩

/-- C18: in a successful `task_hang` (non-null task, `TASK_READY` or `TASK_RUNING`)
the actions of the call are, in this order, the call of `timer_stop`, the call of
`del_task_to_ready_list` and the write of `TASK_WAIT` into `task->status`:
`timer_stop` is applied to the state the call was given, where status and lists are
still untouched. In a successful `task_resume` (non-null task, `TASK_WAIT`) they are
the call of `timer_stop` and then the call of `add_task_to_ready_list` with the link
it makes. In a rejected call of either (null task or wrong status) no action is
recorded, no collaborator is called and the timer is as it was. -/
theorem timer_stop_comes_first (k : Kernel) (task : Nat) :
    (task ≠ 0 → ((k.mem task).status = task_status.TASK_READY ∨
        (k.mem task).status = task_status.TASK_RUNING) →
      task_hang k task =
        (set_status (del_task_to_ready_list (timer_stop k task) task) task
          task_status.TASK_WAIT, Ret.ret 0) ∧
      (task_hang k task).1.history =
        k.history ++ [Action.call (Event.timer_stop task),
          Action.call (Event.del_task_to_ready_list task),
          Action.write_status task task_status.TASK_WAIT] ∧
      (task_hang k task).1.trace =
        k.trace ++ [Event.timer_stop task, Event.del_task_to_ready_list task] ∧
      ((timer_stop k task).mem task).status = (k.mem task).status ∧
      (timer_stop k task).lists = k.lists) ∧
    (task ≠ 0 → (k.mem task).status = task_status.TASK_WAIT →
      task_resume k task = (add_task_to_ready_list (timer_stop k task) task, Ret.ret 0) ∧
      (task_resume k task).1.history =
        k.history ++ [Action.call (Event.timer_stop task),
          Action.call (Event.add_task_to_ready_list task),
          Action.list_add_tail (node_ref.list task)
            (list_head.ready_task_list (k.mem task).current_priority)] ∧
      (task_resume k task).1.trace =
        k.trace ++ [Event.timer_stop task, Event.add_task_to_ready_list task] ∧
      ((timer_stop k task).mem task).status = (k.mem task).status ∧
      (timer_stop k task).lists = k.lists) ∧
    (task = 0 ∨ ((k.mem task).status ≠ task_status.TASK_READY ∧
        (k.mem task).status ≠ task_status.TASK_RUNING) →
      (task_hang k task).1.history = k.history ∧
      (task_hang k task).1.trace = k.trace ∧ (task_hang k task).1.mem = k.mem) ∧
    (task = 0 ∨ (k.mem task).status ≠ task_status.TASK_WAIT →
      (task_resume k task).1.history = k.history ∧
      (task_resume k task).1.trace = k.trace ∧ (task_resume k task).1.mem = k.mem) := by
  refine ⟨?_, ?_, ?_, ?_⟩
  · intro h0 hst
    have h := task_hang_ok k task h0 hst
    rw [h]
    exact ⟨rfl, by simp, by simp, by simp, rfl⟩
  · intro h0 hst
    have h := task_resume_ok k task h0 hst
    rw [h]
    exact ⟨rfl, by simp, by simp, by simp, rfl⟩
  · intro h
    by_cases h0 : task = 0
    · simp [task_hang, h0]
    · rcases h with h | ⟨h1, h2⟩
      · exact absurd h h0
      · by_cases hc : task = k.current
        · simp only [task_hang, h0, h1, h2, if_false, ne_eq, not_false_eq_true, and_self,
            if_true, pr_err_current]
          rw [if_pos hc]
          exact ⟨rfl, rfl, rfl⟩
        · simp only [task_hang, h0, h1, h2, if_false, ne_eq, not_false_eq_true, and_self,
            if_true, pr_err_current]
          rw [if_neg hc]
          exact ⟨rfl, rfl, rfl⟩
  · intro h
    by_cases h0 : task = 0
    · simp [task_resume, h0]
    · rcases h with h | h
      · exact absurd h h0
      · simp [task_resume, h0, h]

/-- C18 (witness): task A, ready, is hung; then, waiting, it is resumed. -/
theorem timer_stop_comes_first_witness :
    (task_hang k_ready 4096).1.history =
      k_ready.history ++ [Action.call (Event.timer_stop 4096),
        Action.call (Event.del_task_to_ready_list 4096),
        Action.write_status 4096 task_status.TASK_WAIT] ∧
    (task_hang k_ready 4096).1.trace =
      k_ready.trace ++ [Event.timer_stop 4096, Event.del_task_to_ready_list 4096] ∧
    ((timer_stop k_ready 4096).mem 4096).status = (k_ready.mem 4096).status ∧
    (timer_stop k_ready 4096).lists = k_ready.lists ∧
    (task_resume k_hung 4096).1.history =
      k_hung.history ++ [Action.call (Event.timer_stop 4096),
        Action.call (Event.add_task_to_ready_list 4096),
        Action.list_add_tail (node_ref.list 4096)
          (list_head.ready_task_list (k_hung.mem 4096).current_priority)] ∧
    (task_resume k_hung 4096).1.trace =
      k_hung.trace ++ [Event.timer_stop 4096, Event.add_task_to_ready_list 4096] ∧
    (task_hang k_created 4096).1.history = k_created.history ∧
    (task_hang k_created 4096).1.trace = k_created.trace :=
  ⟨((timer_stop_comes_first k_ready 4096).1 (by decide) (by decide)).2.1,
    ((timer_stop_comes_first k_ready 4096).1 (by decide) (by decide)).2.2.1,
    ((timer_stop_comes_first k_ready 4096).1 (by decide) (by decide)).2.2.2.1,
    ((timer_stop_comes_first k_ready 4096).1 (by decide) (by decide)).2.2.2.2,
    ((timer_stop_comes_first k_hung 4096).2.1 (by decide) (by decide)).2.1,
    ((timer_stop_comes_first k_hung 4096).2.1 (by decide) (by decide)).2.2.1,
    ((timer_stop_comes_first k_created 4096).2.2.1 (by decide)).1,
    ((timer_stop_comes_first k_created 4096).2.2.1 (by decide)).2.1⟩

/-! ## What `task_ready` and `task_set_prio` do not check -/

/-- C19: for a non-null task that is `TASK_SUSPEND`, `TASK_WAIT` or `TASK_CLOSE`,
`task_ready` returns 0, its collaborator calls are one `add_task_to_ready_list` of
the task followed by one `switch_task`, and the task ends `TASK_READY` and linked
into the ready queue bucket of its current priority, while both registries are what
they were: a task that sits in the closed registry is still there. -/
theorem task_ready_admits_other_statuses (k : Kernel) (task : Nat) (h0 : task ≠ 0)
    (hst : (k.mem task).status = task_status.TASK_SUSPEND ∨
      (k.mem task).status = task_status.TASK_WAIT ∨
      (k.mem task).status = task_status.TASK_CLOSE) :
    (task_ready k task).2 = 0 ∧
    (task_ready k task).1.trace =
      k.trace ++ [Event.add_task_to_ready_list task, Event.switch_task] ∧
    ((task_ready k task).1.mem task).status = task_status.TASK_READY ∧
    node_ref.list task ∈
      (task_ready k task).1.lists (list_head.ready_task_list (k.mem task).current_priority) ∧
    in_ready_queue (task_ready k task).1 task ∧
    (task_ready k task).1.lists list_head.close_task_list =
      k.lists list_head.close_task_list ∧
    (task_ready k task).1.lists list_head.task_list = k.lists list_head.task_list := by
  have h : task_ready k task = (switch_task (add_task_to_ready_list k task), 0) := by
    rcases hst with h | h | h <;> simp [task_ready, h0, h]
  rw [h]
  exact ⟨rfl, by simp, by simp, by simp, ⟨(k.mem task).current_priority, by simp⟩, by simp,
    by simp⟩

/-- C19 (witness): task A was created and then deleted, so it is `TASK_CLOSE` and
sits in the closed registry; `task_ready(A)` returns 0 and A ends in the ready queue
while the closed registry still holds it. -/
theorem task_ready_admits_other_statuses_witness :
    (k_deleted.mem 4096).status = task_status.TASK_CLOSE ∧
    node_ref.list 4096 ∈ k_deleted.lists list_head.close_task_list ∧
    (task_ready k_deleted 4096).2 = 0 ∧
    in_ready_queue (task_ready k_deleted 4096).1 4096 ∧
    node_ref.list 4096 ∈ (task_ready k_deleted 4096).1.lists list_head.close_task_list :=
  ⟨by decide, by decide,
    (task_ready_admits_other_statuses k_deleted 4096 (by decide) (by decide)).1,
    (task_ready_admits_other_statuses k_deleted 4096 (by decide) (by decide)).2.2.2.2.1,
    by
      rw [(task_ready_admits_other_statuses k_deleted 4096 (by decide)
        (by decide)).2.2.2.2.2.1]
      decide⟩

/-- C20: `task_set_prio` does not look at `CONFIG_MAX_PRIORITY`: for a non-null task
and an 8-bit `p` different from its current priority, the call returns 0 and the
current priority is `p`, while initial priority, pid, both tick fields and the flag
are what they were; for `p` at or above `CONFIG_MAX_PRIORITY` the current priority
is then not below `CONFIG_MAX_PRIORITY`. -/
theorem task_set_prio_no_range_check (cfg : Config) (k : Kernel) (task p : Nat)
    (h0 : task ≠ 0) (hp8 : p < 256) (hne : (k.mem task).current_priority ≠ p) :
    (task_set_prio k task p).2 = 0 ∧
    ((task_set_prio k task p).1.mem task).current_priority = p ∧
    ((task_set_prio k task p).1.mem task).init_priority = (k.mem task).init_priority ∧
    ((task_set_prio k task p).1.mem task).pid = (k.mem task).pid ∧
    ((task_set_prio k task p).1.mem task).init_tick = (k.mem task).init_tick ∧
    ((task_set_prio k task p).1.mem task).remaining_tick = (k.mem task).remaining_tick ∧
    ((task_set_prio k task p).1.mem task).flag = (k.mem task).flag ∧
    (cfg.CONFIG_MAX_PRIORITY ≤ p →
      ¬ ((task_set_prio k task p).1.mem task).current_priority < cfg.CONFIG_MAX_PRIORITY) := by
  have hp : p % 256 = p := Nat.mod_eq_of_lt hp8
  have hne2 : (k.mem task).current_priority ≠ p % 256 := by
    rw [hp]
    exact hne
  obtain ⟨a1, -, a3, -, a5, a6, a7, a8, a9⟩ := task_set_prio_changed k task p h0 hne2
  rw [hp] at a3
  refine ⟨a1, a3, a5, a6, a7, a8, a9, ?_⟩
  intro hge
  rw [a3]
  exact Nat.not_lt.mpr hge

/-- C20 (witness): task A was created with priority 5 of 32; `task_set_prio(A, 200)`
returns 0 and leaves the current priority at 200. -/
theorem task_set_prio_no_range_check_witness :
    (k_ready.mem 4096).current_priority < cfg32.CONFIG_MAX_PRIORITY ∧
    (task_set_prio k_ready 4096 200).2 = 0 ∧
    ((task_set_prio k_ready 4096 200).1.mem 4096).current_priority = 200 ∧
    ¬ ((task_set_prio k_ready 4096 200).1.mem 4096).current_priority <
      cfg32.CONFIG_MAX_PRIORITY :=
  ⟨by decide,
    (task_set_prio_no_range_check cfg32 k_ready 4096 200 (by decide) (by decide)
      (by decide)).1,
    (task_set_prio_no_range_check cfg32 k_ready 4096 200 (by decide) (by decide)
      (by decide)).2.1,
    (task_set_prio_no_range_check cfg32 k_ready 4096 200 (by decide) (by decide)
      (by decide)).2.2.2.2.2.2.2 (by decide)⟩

/-! ## Priority-class bitmasks -/

/-- The control block written by `__task_create` has the bitmask fields derived from
the priority it was given. -/
theorem task_create_init_masks (cfg : Config) (k : Kernel) (task : Nat) (name : String)
    (entry parameter stack_start priority tick clean sp : Nat) (rc : Int) :
    prio_masks_derived cfg
      ((__task_create cfg k task name entry parameter stack_start priority tick clean sp
        rc).1.mem task) := by
  by_cases hrc : rc < 0 <;> by_cases hc : 32 < cfg.CONFIG_MAX_PRIORITY <;>
    simp [__task_create, prio_masks_derived, hrc, hc]

/-- A task returned by `task_create` has the bitmask fields derived from its current
priority. -/
theorem task_create_masks (cfg : Config) (env : create_env) (k : Kernel)
    (name : String) (entry parameter priority tick clean : Nat) (k2 : Kernel) (t : Nat)
    (hcall : task_create cfg env k name entry parameter priority tick clean = (k2, t))
    (hok : t ≠ 0) :
    prio_masks_derived cfg (k2.mem t) := by
  by_cases h1 : priority_out_of_range cfg (priority % 256) = true
  · simp [task_create, h1] at hcall
    exact absurd hcall.2.symm hok
  by_cases hk : env.kalloc = 0
  · simp [task_create, h1, hk] at hcall
    exact absurd hcall.2.symm hok
  by_cases hpg : env.alloc_page = 0
  · simp [task_create, h1, hk, hpg] at hcall
    exact absurd hcall.2.symm hok
  by_cases hpid : env.pid_alloc = 0
  · simp [task_create, h1, hk, hpg, hpid] at hcall
    exact absurd hcall.2.symm hok
  by_cases hrc : env.timer_init < 0
  · simp [task_create, h1, hk, hpg, hpid, hrc, task_create_init_rc] at hcall
    exact absurd hcall.2.symm hok
  simp only [task_create, h1, hk, hpg, hpid, hrc, task_create_init_rc, alloc_task_info_snd,
    if_false, Bool.false_eq_true, Prod.mk.injEq] at hcall
  obtain ⟨hk2, ht⟩ := hcall
  subst ht
  subst hk2
  exact task_create_init_masks _ _ _ _ _ _ _ _ _ _ _ _

/-- A priority change writes none of the bitmask fields. -/
theorem task_set_prio_keeps_masks (k : Kernel) (task prio : Nat) :
    ((task_set_prio k task prio).1.mem task).offset = (k.mem task).offset ∧
    ((task_set_prio k task prio).1.mem task).offset_mask = (k.mem task).offset_mask ∧
    ((task_set_prio k task prio).1.mem task).prio_mask = (k.mem task).prio_mask := by
  by_cases h0 : task = 0
  · simp [task_set_prio, h0]
  · by_cases hp : (k.mem task).current_priority = prio % 256
    · simp [task_set_prio, h0, hp]
    · simp [task_set_prio, h0, hp]

/-- C14 (the code at the failing input): with 32 priority levels, task A, created
with priority 5 and made ready, has `offset_mask = 1 << 5`, derived from its current
priority; after `task_set_prio(A, 2)`, which returns 0, the current priority is 2 and
`offset_mask` is still `1 << 5`, not `1 << 2`. With 64 priority levels, task A,
created with priority 40, has `offset = 5`, `offset_mask = 1 << 5` and
`prio_mask = 1 << 0`; after `task_set_prio(A, 9)` the current priority is 9 and the
three fields are what they were, not `1`, `1 << 1` and `1 << 1`. -/
theorem task_set_prio_leaves_stale_masks :
    (prio_masks_derived cfg32 (k_ready.mem 4096) ∧
      (k_ready.mem 4096).offset_mask = 32 ∧
      (task_set_prio k_ready 4096 2).2 = 0 ∧
      ((task_set_prio k_ready 4096 2).1.mem 4096).current_priority = 2 ∧
      ((task_set_prio k_ready 4096 2).1.mem 4096).offset_mask = 32 ∧
      ¬ prio_masks_derived cfg32 ((task_set_prio k_ready 4096 2).1.mem 4096)) ∧
    (prio_masks_derived cfg64 (k_ready64.mem 4096) ∧
      (task_set_prio k_ready64 4096 9).2 = 0 ∧
      ((task_set_prio k_ready64 4096 9).1.mem 4096).current_priority = 9 ∧
      ((task_set_prio k_ready64 4096 9).1.mem 4096).offset = 5 ∧
      ((task_set_prio k_ready64 4096 9).1.mem 4096).offset_mask = 32 ∧
      ((task_set_prio k_ready64 4096 9).1.mem 4096).prio_mask = 1 ∧
      ¬ prio_masks_derived cfg64 ((task_set_prio k_ready64 4096 9).1.mem 4096)) := by
  decide

/-! ## The `list_lock` relation over sequences of calls -/

theorem keeps_locks_refl (k : Kernel) : keeps_locks k k :=
  ⟨rfl, fun _ => rfl, rfl, fun _ => rfl, fun _ _ h => Or.inl h⟩

theorem keeps_locks_trans (k k2 k3 : Kernel) (h1 : keeps_locks k k2)
    (h2 : keeps_locks k2 k3) : keeps_locks k k3 := by
  obtain ⟨a1, a2, a3, a4, a5⟩ := h1
  obtain ⟨b1, b2, b3, b4, b5⟩ := h2
  refine ⟨b1.trans a1, fun a => (b2 a).trans (a2 a), b3.trans a3,
    fun i => (b4 i).trans (a4 i), ?_⟩
  intro h t ht
  rcases b5 h t ht with h' | h'
  · exact a5 h t h'
  · exact Or.inr (a1 ▸ h')

theorem keeps_locks_pr_err (k : Kernel) (func : String) (line : Nat) :
    keeps_locks k (pr_err k func line) :=
  ⟨rfl, fun _ => rfl, rfl, fun _ => rfl, fun _ _ h => Or.inl h⟩

theorem keeps_locks_pr_warning (k : Kernel) (func : String) (line : Nat) :
    keeps_locks k (pr_warning k func line) :=
  ⟨rfl, fun _ => rfl, rfl, fun _ => rfl, fun _ _ h => Or.inl h⟩

theorem keeps_locks_switch_task (k : Kernel) : keeps_locks k (switch_task k) :=
  ⟨rfl, fun _ => rfl, rfl, fun _ => rfl, fun _ _ h => Or.inl h⟩

theorem keeps_locks_update (k : Kernel) (task : Nat) (f : task_struct → task_struct)
    (hf : (f (k.mem task)).list_lock = (k.mem task).list_lock) :
    keeps_locks k (k.update task f) := by
  refine ⟨rfl, ?_, rfl, fun _ => rfl, fun _ _ h => Or.inl h⟩
  intro a
  by_cases ha : a = task
  · subst ha
    simp [hf]
  · simp [ha]

theorem keeps_locks_timer_stop (k : Kernel) (task : Nat) :
    keeps_locks k (timer_stop k task) := by
  refine ⟨rfl, ?_, rfl, fun _ => rfl, fun _ _ h => Or.inl h⟩
  intro a
  by_cases ha : a = task
  · subst ha
    simp
  · simp [ha]

theorem keeps_locks_timer_start (k : Kernel) (task tick : Nat) :
    keeps_locks k (timer_start k task tick) := by
  refine ⟨rfl, ?_, rfl, fun _ => rfl, fun _ _ h => Or.inl h⟩
  intro a
  by_cases ha : a = task
  · subst ha
    simp
  · simp [ha]

theorem keeps_locks_del_ready (k : Kernel) (task : Nat) :
    keeps_locks k (del_task_to_ready_list k task) := by
  refine ⟨rfl, fun _ => rfl, rfl, fun _ => rfl, ?_⟩
  intro h t ht
  cases h with
  | task_list => exact Or.inl ht
  | close_task_list => exact Or.inl ht
  | wait_list i => exact Or.inl ht
  | ready_task_list p =>
    rw [del_task_to_ready_list_ready] at ht
    exact Or.inl (List.mem_filter.mp ht).1

theorem keeps_locks_add_ready (k : Kernel) (task : Nat) (hmem : task ∈ k.kheap) :
    keeps_locks k (add_task_to_ready_list k task) := by
  refine ⟨rfl, ?_, by simp, fun i => by simp, ?_⟩
  · intro a
    by_cases ha : a = task
    · subst ha
      simp
    · simp [ha]
  · intro h t ht
    rw [add_task_to_ready_list_lists] at ht
    by_cases hh : h = list_head.ready_task_list (k.mem task).current_priority
    · rw [if_pos hh] at ht
      rcases List.mem_append.mp ht with h1 | h1
      · exact Or.inl h1
      · simp at h1
        exact Or.inr (h1 ▸ hmem)
    · rw [if_neg hh] at ht
      exact Or.inl ht

theorem list_lock_inv_keeps (k k2 : Kernel) (hinv : list_lock_inv k)
    (hk : keeps_locks k k2) : list_lock_inv k2 := by
  obtain ⟨a1, a2, a3, a4, a5⟩ := hk
  obtain ⟨i1, i2⟩ := hinv
  constructor
  · intro t ht
    rw [a1] at ht
    rw [a2 t, i1 t ht]
    simp only [in_closed_or_wait, a3, a4]
  · intro t ht h hm
    rw [a1] at ht
    rcases a5 h t hm with h' | h'
    · exact i2 t ht h h'
    · exact ht h'

theorem task_ready_keeps_locks (k : Kernel) (task : Nat) (hmem : task ∈ k.kheap) :
    keeps_locks k (task_ready k task).1 := by
  by_cases h0 : task = 0
  · simp only [task_ready, h0, if_true]
    exact keeps_locks_pr_err k _ _
  · by_cases hs : (k.mem task).status = task_status.TASK_READY ∨
        (k.mem task).status = task_status.TASK_RUNING
    · simp only [task_ready, h0, hs, if_true, if_false]
      exact keeps_locks_pr_warning k _ _
    · simp only [task_ready, h0, hs, if_false]
      exact keeps_locks_trans _ _ _ (keeps_locks_add_ready k task hmem)
        (keeps_locks_switch_task _)

theorem task_hang_cases (k : Kernel) (task : Nat) :
    task_hang k task = (pr_err k "task_hang" 261, Ret.ret (-EINVAL)) ∨
    task_hang k task = (pr_err k "task_hang" 265, Ret.bug) ∨
    task_hang k task = (pr_err k "task_hang" 265, Ret.ret (-EINVAL)) ∨
    task_hang k task =
      (set_status (del_task_to_ready_list (timer_stop k task) task) task
          task_status.TASK_WAIT, Ret.ret 0) := by
  by_cases h0 : task = 0
  · exact Or.inl (by simp [task_hang, h0])
  · by_cases hs : (k.mem task).status = task_status.TASK_READY ∨
        (k.mem task).status = task_status.TASK_RUNING
    · exact Or.inr (Or.inr (Or.inr (task_hang_ok k task h0 hs)))
    · have h1 : (k.mem task).status ≠ task_status.TASK_READY := fun h => hs (Or.inl h)
      have h2 : (k.mem task).status ≠ task_status.TASK_RUNING := fun h => hs (Or.inr h)
      by_cases hc : task = k.current
      · refine Or.inr (Or.inl ?_)
        simp only [task_hang, h0, h1, h2, if_false, ne_eq, not_false_eq_true, and_self,
          if_true, pr_err_current]
        rw [if_pos hc]
      · refine Or.inr (Or.inr (Or.inl ?_))
        simp only [task_hang, h0, h1, h2, if_false, ne_eq, not_false_eq_true, and_self,
          if_true, pr_err_current]
        rw [if_neg hc]

theorem keeps_locks_hang_ok (k : Kernel) (task : Nat) :
    keeps_locks k (set_status (del_task_to_ready_list (timer_stop k task) task) task
          task_status.TASK_WAIT) :=
  keeps_locks_trans _ _ _ (keeps_locks_timer_stop k task)
    (keeps_locks_trans _ _ _ (keeps_locks_del_ready _ task)
      (keeps_locks_update _ task _ rfl))

theorem task_hang_keeps_locks (k : Kernel) (task : Nat) :
    keeps_locks k (task_hang k task).1 := by
  rcases task_hang_cases k task with h | h | h | h <;> rw [h]
  · exact keeps_locks_pr_err k _ _
  · exact keeps_locks_pr_err k _ _
  · exact keeps_locks_pr_err k _ _
  · exact keeps_locks_hang_ok k task

theorem task_resume_keeps_locks (k : Kernel) (task : Nat) (hmem : task ∈ k.kheap) :
    keeps_locks k (task_resume k task).1 := by
  by_cases h0 : task = 0
  · simp only [task_resume, h0, if_true]
    exact keeps_locks_pr_err k _ _
  · by_cases hs : (k.mem task).status = task_status.TASK_WAIT
    · rw [task_resume_ok k task h0 hs]
      exact keeps_locks_trans _ _ _ (keeps_locks_timer_stop k task)
        (keeps_locks_add_ready _ task hmem)
    · simp only [task_resume, h0, hs, if_false, ne_eq, not_false_eq_true, if_true]
      exact keeps_locks_pr_err k _ _

theorem task_set_prio_keeps_locks (k : Kernel) (task prio : Nat) (hmem : task ∈ k.kheap) :
    keeps_locks k (task_set_prio k task prio).1 := by
  by_cases h0 : task = 0
  · simp only [task_set_prio, h0, if_true]
    exact keeps_locks_pr_err k _ _
  · by_cases hp : (k.mem task).current_priority = prio % 256
    · simp only [task_set_prio, h0, hp, if_true, if_false]
      exact keeps_locks_refl k
    · simp only [task_set_prio, h0, hp, if_false]
      exact keeps_locks_trans _ _ _ (keeps_locks_del_ready k task)
        (keeps_locks_trans _ _ _ (keeps_locks_update _ task _ rfl)
          (keeps_locks_add_ready _ task hmem))

theorem task_sleep_block_keeps_locks (k : Kernel) (tick : Nat) :
    keeps_locks k (task_sleep_block k tick).1 := by
  by_cases ht : tick % 4294967296 = 0
  · simp only [task_sleep_block, Nat.reducePow, ht, if_true]
    exact keeps_locks_pr_err k _ _
  · rcases task_hang_cases k k.current with h | h | h | h
    · simp [task_sleep_block, ht, h, EINVAL]
      exact keeps_locks_trans _ _ _ (keeps_locks_pr_err k _ _) (keeps_locks_pr_err _ _ _)
    · simp [task_sleep_block, ht, h]
      exact keeps_locks_pr_err k _ _
    · simp [task_sleep_block, ht, h, EINVAL]
      exact keeps_locks_trans _ _ _ (keeps_locks_pr_err k _ _) (keeps_locks_pr_err _ _ _)
    · simp [task_sleep_block, ht, h]
      exact keeps_locks_trans _ _ _ (keeps_locks_hang_ok k k.current)
        (keeps_locks_trans _ _ _ (keeps_locks_timer_start _ _ _)
          (keeps_locks_switch_task _))

theorem task_sleep_wake_keeps_locks (k : Kernel) (task : Nat) :
    keeps_locks k (task_sleep_wake k task).1 := by
  by_cases hf : (k.mem task).flag = -ETIMEDOUT
  · simp only [task_sleep_wake, hf, if_true]
    exact keeps_locks_update k task _ rfl
  · simp only [task_sleep_wake, hf, if_false]
    exact keeps_locks_refl k

theorem dispatch_keeps_locks (k : Kernel) (task : Nat) :
    keeps_locks k (dispatch k task) := by
  have h1 : keeps_locks k
      (if (k.mem k.current).status = task_status.TASK_RUNING then
        k.update k.current fun ts => { ts with status := task_status.TASK_READY }
      else k) := by
    by_cases hs : (k.mem k.current).status = task_status.TASK_RUNING
    · rw [if_pos hs]
      exact keeps_locks_update k _ _ rfl
    · rw [if_neg hs]
      exact keeps_locks_refl k
  have h2 := keeps_locks_update
    (if (k.mem k.current).status = task_status.TASK_RUNING then
        k.update k.current fun ts => { ts with status := task_status.TASK_READY }
      else k) task (fun ts => { ts with status := task_status.TASK_RUNING }) rfl
  have h3 := keeps_locks_trans _ _ _ h1 h2
  exact ⟨h3.1, h3.2.1, h3.2.2.1, h3.2.2.2.1, h3.2.2.2.2⟩

theorem task_del_cases (k : Kernel) (task : Nat) (h0 : task ≠ 0) :
    task_del k task =
      list_add_tail
        (set_list_lock
          (timer_stop
            (set_status
              (list_del
                (if (k.mem task).status = task_status.TASK_READY ∨
                    (k.mem task).status = task_status.TASK_RUNING then
                  del_task_to_ready_list k task else k)
                (node_ref.tlist task))
              task task_status.TASK_CLOSE)
            task)
          task (some list_lock_ref.close_list_lock))
        (node_ref.list task) list_head.close_task_list ∨
    task_del k task =
      switch_task (list_add_tail
        (set_list_lock
          (timer_stop
            (set_status
              (list_del
                (if (k.mem task).status = task_status.TASK_READY ∨
                    (k.mem task).status = task_status.TASK_RUNING then
                  del_task_to_ready_list k task else k)
                (node_ref.tlist task))
              task task_status.TASK_CLOSE)
            task)
          task (some list_lock_ref.close_list_lock))
        (node_ref.list task) list_head.close_task_list) := by
  by_cases hs : (k.mem task).status = task_status.TASK_READY ∨
      (k.mem task).status = task_status.TASK_RUNING <;>
  by_cases hc : task = k.current
  · right
    simp only [task_del, h0, hs, if_true, if_false]
    rw [if_pos (by simpa using hc)]
  · left
    simp only [task_del, h0, hs, if_true, if_false]
    rw [if_neg (by simpa using hc)]
  · right
    simp only [task_del, h0, hs, if_true, if_false]
    rw [if_pos (by simpa using hc)]
  · left
    simp only [task_del, h0, hs, if_true, if_false]
    rw [if_neg (by simpa using hc)]

theorem task_del_facts (k : Kernel) (task : Nat) (h0 : task ≠ 0) :
    (task_del k task).kheap = k.kheap ∧
    (∀ a, ((task_del k task).mem a).list_lock =
      if a = task then some list_lock_ref.close_list_lock else (k.mem a).list_lock) ∧
    (∀ t, node_ref.list t ∈ (task_del k task).lists list_head.close_task_list ↔
      (t = task ∨ node_ref.list t ∈ k.lists list_head.close_task_list)) ∧
    (∀ i t, node_ref.list t ∈ (task_del k task).lists (list_head.wait_list i) ↔
      node_ref.list t ∈ k.lists (list_head.wait_list i)) ∧
    (∀ h t, node_ref.list t ∈ (task_del k task).lists h →
      node_ref.list t ∈ k.lists h ∨ t = task) := by
  by_cases hs : (k.mem task).status = task_status.TASK_READY ∨
      (k.mem task).status = task_status.TASK_RUNING
  all_goals
    rcases task_del_cases k task h0 with h | h
    all_goals
      rw [h]
      simp only [hs, if_true, if_false]
      refine ⟨by simp, ?_, ?_, ?_, ?_⟩
      · intro a
        by_cases ha : a = task
        · simp [ha]
        · simp [ha]
      · intro t
        simp [List.mem_filter]
        tauto
      · intro i t
        simp [List.mem_filter]
      · intro h t
        cases h <;> simp [List.mem_filter] <;> tauto

theorem task_del_list_lock_inv (k : Kernel) (task : Nat) (hinv : list_lock_inv k)
    (hmem : task ∈ k.kheap) : list_lock_inv (task_del k task) := by
  by_cases h0 : task = 0
  · simp only [task_del, h0, if_true]
    exact list_lock_inv_keeps k _ hinv (keeps_locks_pr_err k _ _)
  · obtain ⟨f1, f2, f3, f4, f5⟩ := task_del_facts k task h0
    obtain ⟨i1, i2⟩ := hinv
    constructor
    · intro t ht
      rw [f1] at ht
      by_cases htt : t = task
      · subst htt
        rw [f2 t]
        simp only [if_true, in_closed_or_wait]
        constructor
        · intro _
          exact Or.inl ((f3 t).mpr (Or.inl rfl))
        · intro _
          simp
      · rw [f2 t, if_neg htt, i1 t ht]
        simp only [in_closed_or_wait, f3 t, f4, htt, false_or]
    · intro t ht h hm
      rw [f1] at ht
      rcases f5 h t hm with h' | h'
      · exact i2 t ht h h'
      · exact ht (h' ▸ hmem)

theorem timeout_list_lock_inv (k : Kernel) (task : Nat) (hinv : list_lock_inv k)
    (hmem : task ∈ k.kheap) (hret : (timeout k task).2.returned = true) :
    list_lock_inv (timeout k task).1 := by
  by_cases hb : task = 0 ∨ (k.mem task).status ≠ task_status.TASK_WAIT
  · rw [timeout_bug k task hb] at hret
    simp [Ret.returned] at hret
  · have h0 : task ≠ 0 := fun h => hb (Or.inl h)
    have hst : (k.mem task).status = task_status.TASK_WAIT := by
      by_contra h
      exact hb (Or.inr h)
    rw [timeout_ok k task h0 hst]
    cases hl : (k.mem task).list_lock with
    | none =>
      simp only []
      exact list_lock_inv_keeps k _ hinv
        (keeps_locks_trans _ _ _ (keeps_locks_update k task _ rfl)
          (keeps_locks_trans _ _ _ (keeps_locks_add_ready _ task hmem)
            (keeps_locks_switch_task _)))
    | some l =>
      simp only []
      obtain ⟨i1, i2⟩ := hinv
      constructor
      · intro t ht
        have ht' : t ∈ k.kheap := ht
        by_cases htt : t = task
        · subst htt
          simp [in_closed_or_wait, List.mem_filter]
        · have := i1 t ht'
          simp [in_closed_or_wait, List.mem_filter, htt] at this ⊢
          exact this
      · intro t ht h hm
        have ht' : t ∉ k.kheap := ht
        have htt : t ≠ task := fun e => ht' (e ▸ hmem)
        apply i2 t ht' h
        by_cases hh : h = list_head.ready_task_list (k.mem task).current_priority
        · simp [hh, List.mem_filter, htt] at hm
          rw [hh]
          exact hm
        · simp [hh, List.mem_filter, htt] at hm
          exact hm

theorem wait_list_enqueue_list_lock_inv (k : Kernel) (task i : Nat)
    (hinv : list_lock_inv k) (hmem : task ∈ k.kheap) :
    list_lock_inv (wait_list_enqueue k task i) := by
  obtain ⟨i1, i2⟩ := hinv
  constructor
  · intro t ht
    have ht' : t ∈ k.kheap := ht
    by_cases htt : t = task
    · subst htt
      simp only [wait_list_enqueue, in_closed_or_wait]
      constructor
      · intro _
        exact Or.inr ⟨i, by simp⟩
      · intro _
        simp
    · have := i1 t ht'
      simp only [wait_list_enqueue, in_closed_or_wait] at this ⊢
      simp [htt] at this ⊢
      rw [this]
      constructor
      · rintro (h | ⟨j, h⟩)
        · exact Or.inl h
        · refine Or.inr ⟨j, ?_⟩
          by_cases hj : j = i
          · subst hj
            simp
            exact Or.inl h
          · simp [hj]
            exact h
      · rintro (h | ⟨j, h⟩)
        · exact Or.inl h
        · refine Or.inr ⟨j, ?_⟩
          by_cases hj : j = i
          · subst hj
            simp [htt] at h
            exact h
          · simp [hj] at h
            exact h
  · intro t ht h hm
    have ht' : t ∉ k.kheap := ht
    have htt : t ≠ task := fun e => ht' (e ▸ hmem)
    apply i2 t ht' h
    simp only [wait_list_enqueue, update_lists, list_add_tail_lists] at hm
    by_cases hh : h = list_head.wait_list i
    · simp [hh, htt] at hm
      rw [hh]
      exact hm
    · simp [hh] at hm
      exact hm

theorem task_create_facts (cfg : Config) (env : create_env) (k : Kernel) (name : String)
    (entry parameter priority tick clean : Nat) :
    ((task_create cfg env k name entry parameter priority tick clean).1.kheap = k.kheap ∨
      ((task_create cfg env k name entry parameter priority tick clean).1.kheap =
          env.kalloc :: k.kheap ∧
        ((task_create cfg env k name entry parameter priority tick clean).1.mem
          env.kalloc).list_lock = none)) ∧
    (∀ a, a ≠ env.kalloc →
      (task_create cfg env k name entry parameter priority tick clean).1.mem a = k.mem a) ∧
    (∀ h t, node_ref.list t ∈
        (task_create cfg env k name entry parameter priority tick clean).1.lists h ↔
      node_ref.list t ∈ k.lists h) := by
  by_cases h1 : priority_out_of_range cfg (priority % 256) = true
  · simp [task_create, h1]
  by_cases hk : env.kalloc = 0
  · simp [task_create, h1, hk]
  by_cases hpg : env.alloc_page = 0
  · simp [task_create, h1, hk, hpg]
  by_cases hpid : env.pid_alloc = 0
  · simp [task_create, h1, hk, hpg, hpid]
  by_cases hrc : env.timer_init < 0
  · simp only [task_create, h1, hk, hpg, hpid, hrc, task_create_init_rc, alloc_task_info_snd,
      if_false, if_true, Bool.false_eq_true]
    refine ⟨Or.inl (by simp [task_create_init_kheap, hk]), ?_, ?_⟩
    · intro a ha
      simp [task_create_init_mem_other _ _ _ _ _ _ _ _ _ _ _ _ a ha, ha]
    · intro h t
      by_cases hh : h = list_head.task_list <;> simp [task_create_init_lists, hh]
  · simp only [task_create, h1, hk, hpg, hpid, hrc, task_create_init_rc, alloc_task_info_snd,
      if_false, Bool.false_eq_true]
    refine ⟨Or.inr ⟨by simp [task_create_init_kheap, hk],
      (task_create_init_fields _ _ _ _ _ _ _ _ _ _ _ _).2.1⟩, ?_, ?_⟩
    · intro a ha
      simp [task_create_init_mem_other _ _ _ _ _ _ _ _ _ _ _ _ a ha, ha]
    · intro h t
      by_cases hh : h = list_head.task_list <;> simp [task_create_init_lists, hh]

theorem task_create_list_lock_inv (cfg : Config) (env : create_env) (k : Kernel)
    (name : String) (entry parameter priority tick clean : Nat) (hinv : list_lock_inv k)
    (hfresh : env.kalloc ∉ k.kheap) :
    list_lock_inv (task_create cfg env k name entry parameter priority tick clean).1 := by
  obtain ⟨f1, f2, f3⟩ := task_create_facts cfg env k name entry parameter priority tick clean
  obtain ⟨i1, i2⟩ := hinv
  have hin : ∀ t, in_closed_or_wait
      (task_create cfg env k name entry parameter priority tick clean).1 t ↔
      in_closed_or_wait k t := by
    intro t
    simp only [in_closed_or_wait, f3]
  constructor
  · intro t ht
    rcases f1 with e | ⟨e, hl⟩
    · rw [e] at ht
      have hne : t ≠ env.kalloc := fun h => hfresh (h ▸ ht)
      rw [f2 t hne, hin t]
      exact i1 t ht
    · rw [e] at ht
      rcases List.mem_cons.mp ht with h | h
      · subst h
        rw [hl, hin]
        simp only [ne_eq, not_true_eq_false, false_iff, in_closed_or_wait, not_or, not_exists]
        exact ⟨i2 _ hfresh _, fun i => i2 _ hfresh _⟩
      · have hne : t ≠ env.kalloc := fun h' => hfresh (h' ▸ h)
        rw [f2 t hne, hin t]
        exact i1 t h
  · intro t ht h hm
    have ht' : t ∉ k.kheap := by
      rcases f1 with e | ⟨e, -⟩
      · rw [e] at ht
        exact ht
      · rw [e] at ht
        exact fun h' => ht (List.mem_cons_of_mem _ h')
    exact i2 t ht' h ((f3 h t).mp hm)

theorem step_list_lock_inv (cfg : Config) (k k2 : Kernel) (op : Op)
    (hinv : list_lock_inv k) (hstep : step cfg k op = some k2) : list_lock_inv k2 := by
  cases op with
  | create env name entry parameter priority tick clean =>
    by_cases hf : env.kalloc ∈ k.kheap
    · simp [step, hf] at hstep
    · simp only [step, hf, if_false, Option.some.injEq] at hstep
      rw [← hstep]
      exact task_create_list_lock_inv cfg env k name entry parameter priority tick clean
        hinv hf
  | ready task =>
    by_cases hm : task ∈ k.kheap
    · simp only [step, hm, if_true, Option.some.injEq] at hstep
      rw [← hstep]
      exact list_lock_inv_keeps k _ hinv (task_ready_keeps_locks k task hm)
    · simp [step, hm] at hstep
  | hang task =>
    by_cases hm : task ∈ k.kheap ∧ (task_hang k task).2.returned = true
    · simp only [step, hm, and_self, if_true, Option.some.injEq] at hstep
      rw [← hstep]
      exact list_lock_inv_keeps k _ hinv (task_hang_keeps_locks k task)
    · simp only [step, hm, if_false] at hstep
      exact absurd hstep (by simp)
  | resume task =>
    by_cases hm : task ∈ k.kheap ∧ (task_resume k task).2.returned = true
    · simp only [step, hm, and_self, if_true, Option.some.injEq] at hstep
      rw [← hstep]
      exact list_lock_inv_keeps k _ hinv (task_resume_keeps_locks k task hm.1)
    · simp only [step, hm, if_false] at hstep
      exact absurd hstep (by simp)
  | sleep_block tick =>
    by_cases hm : k.current ∈ k.kheap ∧ (task_sleep_block k tick).2.1.returned = true
    · simp only [step, hm, and_self, if_true, Option.some.injEq] at hstep
      rw [← hstep]
      exact list_lock_inv_keeps k _ hinv (task_sleep_block_keeps_locks k tick)
    · simp only [step, hm, if_false] at hstep
      exact absurd hstep (by simp)
  | sleep_wake task =>
    by_cases hm : task ∈ k.kheap
    · simp only [step, hm, if_true, Option.some.injEq] at hstep
      rw [← hstep]
      exact list_lock_inv_keeps k _ hinv (task_sleep_wake_keeps_locks k task)
    · simp [step, hm] at hstep
  | set_prio task prio =>
    by_cases hm : task ∈ k.kheap
    · simp only [step, hm, if_true, Option.some.injEq] at hstep
      rw [← hstep]
      exact list_lock_inv_keeps k _ hinv (task_set_prio_keeps_locks k task prio hm)
    · simp [step, hm] at hstep
  | del task =>
    by_cases hm : task ∈ k.kheap
    · simp only [step, hm, if_true, Option.some.injEq] at hstep
      rw [← hstep]
      exact task_del_list_lock_inv k task hinv hm
    · simp [step, hm] at hstep
  | timeout task =>
    by_cases hm : task ∈ k.kheap ∧ (timeout k task).2.returned = true
    · simp only [step, hm, and_self, if_true, Option.some.injEq] at hstep
      rw [← hstep]
      exact timeout_list_lock_inv k task hinv hm.1 hm.2
    · simp only [step, hm, if_false] at hstep
      exact absurd hstep (by simp)
  | wait_enqueue task i =>
    by_cases hm : task ∈ k.kheap ∧ (k.mem task).list_lock = none
    · simp only [step, hm, and_self, if_true, Option.some.injEq] at hstep
      rw [← hstep]
      exact wait_list_enqueue_list_lock_inv k task i hinv hm.1
    · simp only [step, hm, if_false] at hstep
      exact absurd hstep (by simp)
  | dispatch task =>
    by_cases hm : task ∈ k.kheap
    · simp only [step, hm, if_true, Option.some.injEq] at hstep
      rw [← hstep]
      exact list_lock_inv_keeps k _ hinv (dispatch_keeps_locks k task)
    · simp [step, hm] at hstep

theorem run_list_lock_inv (cfg : Config) (ops : List Op) :
    ∀ (k k2 : Kernel), list_lock_inv k → run cfg k ops = some k2 → list_lock_inv k2 := by
  induction ops with
  | nil =>
    intro k k2 hinv hrun
    simp only [run, Option.some.injEq] at hrun
    exact hrun ▸ hinv
  | cons op ops ih =>
    intro k k2 hinv hrun
    cases hs : step cfg k op with
    | none => simp [run, hs] at hrun
    | some k1 =>
      simp only [run, hs] at hrun
      exact ih k1 k2 (step_list_lock_inv cfg k k1 op hinv hs) hrun

theorem initial_list_lock_inv (k : Kernel) (h : Initial k) : list_lock_inv k := by
  obtain ⟨h1, h2⟩ := h
  constructor
  · intro t ht
    rw [h2] at ht
    exact absurd ht (List.not_mem_nil t)
  · intro t _ h
    rw [h1 h]
    exact List.not_mem_nil _

/-- C15 (the code at the failing input): the first task of the system is created
and deleted, which leaves it `TASK_CLOSE`, out of the live registry and once in the
closed registry; a second `task_del` of the same task links its `list` node into the
closed registry a second time. -/
theorem task_del_twice_links_twice :
    (k_deleted.mem 4096).status = task_status.TASK_CLOSE ∧
    k_deleted.lists list_head.task_list = [] ∧
    k_deleted.lists list_head.close_task_list = [node_ref.list 4096] ∧
    run cfg32 boot ops_create_del_del = some (task_del k_deleted 4096) ∧
    (task_del k_deleted 4096).lists list_head.task_list = [] ∧
    (task_del k_deleted 4096).lists list_head.close_task_list =
      [node_ref.list 4096, node_ref.list 4096] ∧
    ((task_del k_deleted 4096).lists list_head.close_task_list).count
      (node_ref.list 4096) = 2 :=
  ⟨by decide, by decide, by decide, rfl, by decide, by decide, by decide⟩

end Nos
